import Mathlib

/-!
Shallow embedding of the cafebabe class-file attribute parser
(src/src/attributes.rs).  Byte buffers are `List Nat` (each element a byte,
only the low 8 bits significant); the cursor is an explicit `Nat` index and
every reader returns `Except ParseError (value × newIndex)`.

The integer readers, constant-pool accessors, name/descriptor validators and
flag carriers live in repository files outside src/ (lib.rs, constant_pool.rs,
names.rs); they are modelled from the spec (sections 4.A, 4.B, 4.C and 6) as
indicated on each definition.  The bytecode decoder (bytecode.rs) and the
modified-UTF-8 decoder (cesu8 crate) are taken as parameters, since no claim
depends on their internals.
-/

/-- A parse error: the head message together with its stack of context
frames, outermost context first (spec section 4.G). -/
abbrev ParseError := List String

/-- Wrap an error with one more (outer) context frame, as the source's
`map_err(|e| err!(e, ...))` does. -/
def wrapErr (ctx : String) {α : Type} (x : Except ParseError α) : Except ParseError α :=
  x.mapError (fun e => ctx :: e)

/-- `true` exactly on `Except.error`. -/
def isError {α : Type} : Except ParseError α → Bool
  | .error _ => true
  | .ok _ => false

/-- Modelled from the spec: section 4.A `read_u1` (lib.rs, outside src/) —
read one byte, advancing the cursor; fail with UnexpectedEnd on short input. -/
def read_u1 (bytes : List Nat) (ix : Nat) : Except ParseError (Nat × Nat) :=
  match bytes.get? ix with
  | some b => .ok (b % 256, ix + 1)
  | none => .error ["Unexpected end of stream reading u1 at index " ++ toString ix]

/-- Modelled from the spec: section 4.A `read_u2` (lib.rs, outside src/) —
big-endian two-byte read. -/
def read_u2 (bytes : List Nat) (ix : Nat) : Except ParseError (Nat × Nat) :=
  match bytes.get? ix, bytes.get? (ix + 1) with
  | some b0, some b1 => .ok ((b0 % 256) * 256 + b1 % 256, ix + 2)
  | _, _ => .error ["Unexpected end of stream reading u2 at index " ++ toString ix]

/-- Modelled from the spec: section 4.A `read_u4` (lib.rs, outside src/) —
big-endian four-byte read. -/
def read_u4 (bytes : List Nat) (ix : Nat) : Except ParseError (Nat × Nat) :=
  match bytes.get? ix, bytes.get? (ix + 1), bytes.get? (ix + 2), bytes.get? (ix + 3) with
  | some b0, some b1, some b2, some b3 =>
      .ok (((b0 % 256) * 256 + b1 % 256) * 65536 + (b2 % 256) * 256 + b3 % 256, ix + 4)
  | _, _, _, _ => .error ["Unexpected end of stream reading u4 at index " ++ toString ix]

/-- A name-and-type pair resolved from the pool (spec section 3). -/
structure NameAndType where
  name : String
  descriptor : String
deriving DecidableEq

/-- Modelled from the spec: a resolved field/method/interface-method
reference (constant_pool.rs, outside src/). -/
inductive MemberRef where
  | FieldRef (class_name : String) (nat : NameAndType)
  | MethodRef (class_name : String) (nat : NameAndType)
  | InterfaceMethodRef (class_name : String) (nat : NameAndType)
deriving DecidableEq

/-- Modelled from the spec: a resolved MethodHandle — kind 1..9 plus the
referenced member (spec section 3). -/
structure MethodHandle where
  kind : Nat
  reference : MemberRef
deriving DecidableEq

/-- Modelled from the spec: `LiteralConstant` (spec section 3).  Float and
Double payloads are carried as their raw IEEE bit patterns. -/
inductive LiteralConstant where
  | Integer (v : Int)
  | Float (bits : Nat)
  | Long (v : Int)
  | Double (bits : Nat)
  | String (s : String)
deriving DecidableEq

/-- Modelled from the spec: `BootstrapArgument` (spec section 3). -/
inductive BootstrapArgument where
  | Literal (v : LiteralConstant)
  | ClassInfo (class_name : String)
  | MethodHandle (mh : MethodHandle)
  | MethodType (descriptor : String)
  | Dynamic (attr_index : Nat) (nat : NameAndType)
deriving DecidableEq

/-- Modelled from the spec: the resolved view of a constant-pool entry
(constant_pool.rs is outside src/; spec sections 3 and 4.C).  Attribute
decoding consults the pool only after pass-2 resolution, so cross-references
are stored already materialized. -/
inductive ConstantPoolEntry where
  | Utf8 (s : String)
  | IntegerInfo (v : Int)
  | FloatInfo (bits : Nat)
  | LongInfo (v : Int)
  | DoubleInfo (bits : Nat)
  | ClassInfo (name : String)
  | StringRef (s : String)
  | Member (r : MemberRef)
  | NameAndTypeInfo (nat : NameAndType)
  | MethodHandleInfo (mh : MethodHandle)
  | MethodTypeInfo (descriptor : String)
  | DynamicInfo (attr_index : Nat) (nat : NameAndType)
  | InvokeDynamicInfo (attr_index : Nat) (nat : NameAndType)
  | ModuleInfo (s : String)
  | PackageInfo (s : String)
  | Placeholder
deriving DecidableEq

/-- Modelled from the spec: pool lookup — index 0 is reserved, valid indices
are 1..count, and a reference landing on a Placeholder is fatal
(spec section 3 invariants and 4.C). -/
def cp_entry (pool : List ConstantPoolEntry) (n : Nat) : Except ParseError ConstantPoolEntry :=
  if n = 0 then .error ["Invalid constant pool index 0"]
  else
    match pool.get? (n - 1) with
    | none => .error ["Out of range constant pool index " ++ toString n]
    | some .Placeholder => .error ["Constant pool index " ++ toString n ++ " is a placeholder"]
    | some e => .ok e

/-- Modelled from the spec: `read_cp_utf8` — read a u16 index, resolve,
require a Utf8 entry (spec section 4.C). -/
def read_cp_utf8 (bytes : List Nat) (ix : Nat) (pool : List ConstantPoolEntry) :
    Except ParseError (String × Nat) :=
  match read_u2 bytes ix with
  | .error e => .error e
  | .ok (n, ix') =>
    match cp_entry pool n with
    | .error e => .error e
    | .ok (.Utf8 s) => .ok (s, ix')
    | .ok _ => .error ["Constant pool entry " ++ toString n ++ " is not a Utf8"]

/-- Modelled from the spec: `read_cp_utf8_opt` — index 0 yields none
(spec section 4.C). -/
def read_cp_utf8_opt (bytes : List Nat) (ix : Nat) (pool : List ConstantPoolEntry) :
    Except ParseError (Option String × Nat) :=
  match read_u2 bytes ix with
  | .error e => .error e
  | .ok (0, ix') => .ok (none, ix')
  | .ok (n, ix') =>
    match cp_entry pool n with
    | .error e => .error e
    | .ok (.Utf8 s) => .ok (some s, ix')
    | .ok _ => .error ["Constant pool entry " ++ toString n ++ " is not a Utf8"]

/-- Modelled from the spec: `read_cp_classinfo` — resolve a ClassInfo entry
to its internal-form class name (spec section 4.C). -/
def read_cp_classinfo (bytes : List Nat) (ix : Nat) (pool : List ConstantPoolEntry) :
    Except ParseError (String × Nat) :=
  match read_u2 bytes ix with
  | .error e => .error e
  | .ok (n, ix') =>
    match cp_entry pool n with
    | .error e => .error e
    | .ok (.ClassInfo s) => .ok (s, ix')
    | .ok _ => .error ["Constant pool entry " ++ toString n ++ " is not a ClassInfo"]

/-- Modelled from the spec: `read_cp_classinfo_opt` (spec section 4.C). -/
def read_cp_classinfo_opt (bytes : List Nat) (ix : Nat) (pool : List ConstantPoolEntry) :
    Except ParseError (Option String × Nat) :=
  match read_u2 bytes ix with
  | .error e => .error e
  | .ok (0, ix') => .ok (none, ix')
  | .ok (n, ix') =>
    match cp_entry pool n with
    | .error e => .error e
    | .ok (.ClassInfo s) => .ok (some s, ix')
    | .ok _ => .error ["Constant pool entry " ++ toString n ++ " is not a ClassInfo"]

/-- Modelled from the spec: `read_cp_nameandtype_opt` (spec section 4.C). -/
def read_cp_nameandtype_opt (bytes : List Nat) (ix : Nat) (pool : List ConstantPoolEntry) :
    Except ParseError (Option NameAndType × Nat) :=
  match read_u2 bytes ix with
  | .error e => .error e
  | .ok (0, ix') => .ok (none, ix')
  | .ok (n, ix') =>
    match cp_entry pool n with
    | .error e => .error e
    | .ok (.NameAndTypeInfo nat) => .ok (some nat, ix')
    | .ok _ => .error ["Constant pool entry " ++ toString n ++ " is not a NameAndType"]

/-- Modelled from the spec: `read_cp_literalconstant` —
Integer/Float/Long/Double/String entries resolve to a literal
(spec section 4.C). -/
def read_cp_literalconstant (bytes : List Nat) (ix : Nat) (pool : List ConstantPoolEntry) :
    Except ParseError (LiteralConstant × Nat) :=
  match read_u2 bytes ix with
  | .error e => .error e
  | .ok (n, ix') =>
    match cp_entry pool n with
    | .error e => .error e
    | .ok (.IntegerInfo v) => .ok (.Integer v, ix')
    | .ok (.FloatInfo b) => .ok (.Float b, ix')
    | .ok (.LongInfo v) => .ok (.Long v, ix')
    | .ok (.DoubleInfo b) => .ok (.Double b, ix')
    | .ok (.StringRef s) => .ok (.String s, ix')
    | .ok _ => .error ["Constant pool entry " ++ toString n ++ " is not a literal constant"]

/-- Modelled from the spec: `read_cp_integer` (spec section 4.C). -/
def read_cp_integer (bytes : List Nat) (ix : Nat) (pool : List ConstantPoolEntry) :
    Except ParseError (Int × Nat) :=
  match read_u2 bytes ix with
  | .error e => .error e
  | .ok (n, ix') =>
    match cp_entry pool n with
    | .error e => .error e
    | .ok (.IntegerInfo v) => .ok (v, ix')
    | .ok _ => .error ["Constant pool entry " ++ toString n ++ " is not an Integer"]

/-- Modelled from the spec: `read_cp_float` (spec section 4.C).  The value is
the raw IEEE-754 bit pattern. -/
def read_cp_float (bytes : List Nat) (ix : Nat) (pool : List ConstantPoolEntry) :
    Except ParseError (Nat × Nat) :=
  match read_u2 bytes ix with
  | .error e => .error e
  | .ok (n, ix') =>
    match cp_entry pool n with
    | .error e => .error e
    | .ok (.FloatInfo b) => .ok (b, ix')
    | .ok _ => .error ["Constant pool entry " ++ toString n ++ " is not a Float"]

/-- Modelled from the spec: `read_cp_long` (spec section 4.C). -/
def read_cp_long (bytes : List Nat) (ix : Nat) (pool : List ConstantPoolEntry) :
    Except ParseError (Int × Nat) :=
  match read_u2 bytes ix with
  | .error e => .error e
  | .ok (n, ix') =>
    match cp_entry pool n with
    | .error e => .error e
    | .ok (.LongInfo v) => .ok (v, ix')
    | .ok _ => .error ["Constant pool entry " ++ toString n ++ " is not a Long"]

/-- Modelled from the spec: `read_cp_double` (spec section 4.C).  The value
is the raw IEEE-754 bit pattern. -/
def read_cp_double (bytes : List Nat) (ix : Nat) (pool : List ConstantPoolEntry) :
    Except ParseError (Nat × Nat) :=
  match read_u2 bytes ix with
  | .error e => .error e
  | .ok (n, ix') =>
    match cp_entry pool n with
    | .error e => .error e
    | .ok (.DoubleInfo b) => .ok (b, ix')
    | .ok _ => .error ["Constant pool entry " ++ toString n ++ " is not a Double"]

/-- Modelled from the spec: `read_cp_methodhandle` (spec section 4.C). -/
def read_cp_methodhandle (bytes : List Nat) (ix : Nat) (pool : List ConstantPoolEntry) :
    Except ParseError (MethodHandle × Nat) :=
  match read_u2 bytes ix with
  | .error e => .error e
  | .ok (n, ix') =>
    match cp_entry pool n with
    | .error e => .error e
    | .ok (.MethodHandleInfo mh) => .ok (mh, ix')
    | .ok _ => .error ["Constant pool entry " ++ toString n ++ " is not a MethodHandle"]

/-- Modelled from the spec: `read_cp_bootstrap_argument` — Literal, Class,
MethodHandle, MethodType or Dynamic (spec section 4.C). -/
def read_cp_bootstrap_argument (bytes : List Nat) (ix : Nat) (pool : List ConstantPoolEntry) :
    Except ParseError (BootstrapArgument × Nat) :=
  match read_u2 bytes ix with
  | .error e => .error e
  | .ok (n, ix') =>
    match cp_entry pool n with
    | .error e => .error e
    | .ok (.IntegerInfo v) => .ok (.Literal (.Integer v), ix')
    | .ok (.FloatInfo b) => .ok (.Literal (.Float b), ix')
    | .ok (.LongInfo v) => .ok (.Literal (.Long v), ix')
    | .ok (.DoubleInfo b) => .ok (.Literal (.Double b), ix')
    | .ok (.StringRef s) => .ok (.Literal (.String s), ix')
    | .ok (.ClassInfo s) => .ok (.ClassInfo s, ix')
    | .ok (.MethodHandleInfo mh) => .ok (.MethodHandle mh, ix')
    | .ok (.MethodTypeInfo d) => .ok (.MethodType d, ix')
    | .ok (.DynamicInfo a nat) => .ok (.Dynamic a nat, ix')
    | .ok _ => .error ["Constant pool entry " ++ toString n ++ " is not a bootstrap argument"]

/-- Modelled from the spec: `read_cp_moduleinfo` (spec section 4.C). -/
def read_cp_moduleinfo (bytes : List Nat) (ix : Nat) (pool : List ConstantPoolEntry) :
    Except ParseError (String × Nat) :=
  match read_u2 bytes ix with
  | .error e => .error e
  | .ok (n, ix') =>
    match cp_entry pool n with
    | .error e => .error e
    | .ok (.ModuleInfo s) => .ok (s, ix')
    | .ok _ => .error ["Constant pool entry " ++ toString n ++ " is not a Module"]

/-- Modelled from the spec: `read_cp_packageinfo` (spec section 4.C). -/
def read_cp_packageinfo (bytes : List Nat) (ix : Nat) (pool : List ConstantPoolEntry) :
    Except ParseError (String × Nat) :=
  match read_u2 bytes ix with
  | .error e => .error e
  | .ok (n, ix') =>
    match cp_entry pool n with
    | .error e => .error e
    | .ok (.PackageInfo s) => .ok (s, ix')
    | .ok _ => .error ["Constant pool entry " ++ toString n ++ " is not a Package"]

/-- Modelled from the spec: characters forbidden in an unqualified name
(spec section 4.B). -/
def forbidden_name_char (c : Char) : Bool :=
  c = '.' || c = ';' || c = '[' || c = '/'

/-- Modelled from the spec: `is_unqualified_name` (names.rs, outside src/) —
non-empty, forbids dot, semicolon, open-bracket and slash; the two special
names are allowed only when the corresponding flag is set (spec section 4.B). -/
def is_unqualified_name (s : String) (allow_init allow_clinit : Bool) : Bool :=
  if s = "<init>" then allow_init
  else if s = "<clinit>" then allow_clinit
  else !s.isEmpty && s.data.all (fun c => !forbidden_name_char c)

/-- Modelled from the spec: field-descriptor grammar
`FieldType = BaseType | ObjectType | ArrayType` over a character list,
returning the unconsumed remainder on success (spec section 4.B). -/
def parse_field_type : List Char → Option (List Char)
  | [] => none
  | c :: rest =>
    if c = 'B' || c = 'C' || c = 'D' || c = 'F' || c = 'I' || c = 'J' || c = 'S' || c = 'Z' then
      some rest
    else if c = '[' then parse_field_type rest
    else if c = 'L' then
      match rest.dropWhile (fun d => d ≠ ';') with
      | ';' :: r => if (rest.takeWhile (fun d => d ≠ ';')).isEmpty then none else some r
      | _ => none
    else none

/-- Modelled from the spec: `is_field_descriptor` — the whole string matches
the FieldType grammar with no trailing characters (spec section 4.B). -/
def is_field_descriptor (s : String) : Bool :=
  match parse_field_type s.data with
  | some [] => true
  | _ => false

/-- Modelled from the spec: `is_return_descriptor` — a field descriptor or
`V` (spec section 4.B). -/
def is_return_descriptor (s : String) : Bool :=
  s = "V" || is_field_descriptor s

namespace AccessFlags

/-- Modelled from the spec: the JVM access-flag bit assignments
(spec section 6). -/
def PUBLIC : Nat := 0x0001
def PRIVATE : Nat := 0x0002
def PROTECTED : Nat := 0x0004
def STATIC : Nat := 0x0008
def FINAL : Nat := 0x0010
def OPEN : Nat := 0x0020
def TRANSITIVE : Nat := 0x0020
def STATIC_PHASE : Nat := 0x0040
def INTERFACE : Nat := 0x0200
def ABSTRACT : Nat := 0x0400
def SYNTHETIC : Nat := 0x1000
def ANNOTATION_FLAG : Nat := 0x2000
def ENUM : Nat := 0x4000
def MANDATED : Nat := 0x8000

end AccessFlags

/-- bitflags `from_bits`: `some bits` when every set bit is defined in the
mask, else `none` (strict sets fail on undefined bits). -/
def from_bits (mask bits : Nat) : Option Nat :=
  if bits &&& mask = bits then some bits else none

/-- bitflags `from_bits_truncate`: silently drop undefined bits. -/
def from_bits_truncate (mask bits : Nat) : Nat :=
  bits &&& mask

/-- Defined bits of `InnerClassAccessFlags` (attributes.rs lines 53-66). -/
def innerclass_mask : Nat :=
  AccessFlags.PUBLIC ||| AccessFlags.PRIVATE ||| AccessFlags.PROTECTED |||
  AccessFlags.STATIC ||| AccessFlags.FINAL ||| AccessFlags.INTERFACE |||
  AccessFlags.ABSTRACT ||| AccessFlags.SYNTHETIC ||| AccessFlags.ANNOTATION_FLAG |||
  AccessFlags.ENUM

/-- Defined bits of `MethodParameterAccessFlags` (attributes.rs lines 182-188). -/
def methodparameter_mask : Nat :=
  AccessFlags.FINAL ||| AccessFlags.SYNTHETIC ||| AccessFlags.MANDATED

/-- Defined bits of `ModuleAccessFlags` (attributes.rs lines 196-202). -/
def module_mask : Nat :=
  AccessFlags.OPEN ||| AccessFlags.SYNTHETIC ||| AccessFlags.MANDATED

/-- Defined bits of `ModuleRequiresFlags` (attributes.rs lines 204-211). -/
def modulerequires_mask : Nat :=
  AccessFlags.TRANSITIVE ||| AccessFlags.STATIC_PHASE ||| AccessFlags.SYNTHETIC |||
  AccessFlags.MANDATED

/-- Defined bits of `ModuleExportsFlags` (attributes.rs lines 220-225). -/
def moduleexports_mask : Nat :=
  AccessFlags.SYNTHETIC ||| AccessFlags.MANDATED

/-- Defined bits of `ModuleOpensFlags` (attributes.rs lines 234-239). -/
def moduleopens_mask : Nat :=
  AccessFlags.SYNTHETIC ||| AccessFlags.MANDATED

/-- Parse configuration (spec section 6).  Only `parse_bytecode` is
recognized. -/
structure ParseOptions where
  parse_bytecode : Bool
deriving DecidableEq

/-- The decoded bytecode of one method (bytecode.rs, outside src/).  No claim
inspects instructions, so the decoded form is kept abstract as a byte list. -/
abbrev ByteCode := List Nat

/-- The type of `ByteCode::from` (bytecode.rs, outside src/): it is passed as
a parameter, so every theorem below holds for an arbitrary decoder. -/
abbrev BcDecoder := List Nat → List ConstantPoolEntry → Except ParseError ByteCode

/-- The type of the modified-UTF-8 decoder (cesu8 crate, external); also a
parameter. -/
abbrev Cesu8Decoder := List Nat → Option String

/-- attributes.rs lines 13-19. -/
structure ExceptionTableEntry where
  start_pc : Nat
  end_pc : Nat
  handler_pc : Nat
  catch_type : Option String
deriving DecidableEq

/-- attributes.rs lines 31-42. -/
inductive VerificationType where
  | Top
  | Integer
  | Float
  | Long
  | Double
  | Null
  | UninitializedThis
  | Uninitialized (code_offset : Nat)
  | Object (class_name : String)
deriving DecidableEq

/-- attributes.rs lines 44-51. -/
inductive StackMapEntry where
  | Same (offset_delta : Nat)
  | SameLocals1StackItem (offset_delta : Nat) (stack : VerificationType)
  | Chop (offset_delta : Nat) (chop_count : Nat)
  | Append (offset_delta : Nat) (locals : List VerificationType)
  | FullFrame (offset_delta : Nat) (locals : List VerificationType) (stack : List VerificationType)
deriving DecidableEq

/-- attributes.rs lines 68-74; `access_flags` carries the u16 bit set. -/
structure InnerClassEntry where
  inner_class_info : String
  outer_class_info : Option String
  inner_name : Option String
  access_flags : Nat
deriving DecidableEq

/-- attributes.rs lines 76-80. -/
structure LineNumberEntry where
  start_pc : Nat
  line_number : Nat
deriving DecidableEq

/-- attributes.rs lines 82-89. -/
structure LocalVariableEntry where
  start_pc : Nat
  length : Nat
  name : String
  descriptor : String
  index : Nat
deriving DecidableEq

/-- attributes.rs lines 91-98. -/
structure LocalVariableTypeEntry where
  start_pc : Nat
  length : Nat
  name : String
  signature : String
  index : Nat
deriving DecidableEq

/-- attributes.rs lines 100-115: `AnnotationElementValue` (renamed to avoid a
clash with notation-related identifier rules; constructors keep their source
names).  Float and Double payloads are raw bit patterns. -/
inductive AnnotElementValue where
  | ByteConstant (v : Int)
  | CharConstant (v : Int)
  | DoubleConstant (bits : Nat)
  | FloatConstant (bits : Nat)
  | IntConstant (v : Int)
  | LongConstant (v : Int)
  | ShortConstant (v : Int)
  | BooleanConstant (v : Int)
  | StringConstant (s : String)
  | EnumConstant (type_name : String) (const_name : String)
  | ClassLiteral (class_name : String)
  | AnnotationValue (type_descriptor : String) (elements : List (String × AnnotElementValue))
  | ArrayValue (vs : List AnnotElementValue)

/-- attributes.rs lines 123-127: `Annotation` — a type descriptor plus named
element values (the element list pairs each element name with its value, as
the source's `AnnotationElement` does). -/
structure Annot where
  type_descriptor : String
  elements : List (String × AnnotElementValue)

/-- attributes.rs lines 129-132: `ParameterAnnotation`. -/
structure ParameterAnnot where
  annotations : List Annot

/-- attributes.rs lines 134-139. -/
structure TypeAnnotationLocalVarTargetEntry where
  start_pc : Nat
  length : Nat
  index : Nat
deriving DecidableEq

/-- attributes.rs lines 141-153: `TypeAnnotationTarget`. -/
inductive TypeAnnotTarget where
  | TypeParameter (index : Nat)
  | Supertype (index : Nat)
  | TypeParameterBound (type_parameter_index : Nat) (bound_index : Nat)
  | Empty
  | FormalParameter (index : Nat)
  | Throws (index : Nat)
  | LocalVar (entries : List TypeAnnotationLocalVarTargetEntry)
  | Catch (exception_table_index : Nat)
  | Offset (offset : Nat)
  | TypeArgument (offset : Nat) (type_argument_index : Nat)
deriving DecidableEq

/-- attributes.rs lines 155-161: `TypeAnnotationTargetPathKind`. -/
inductive TypeAnnotTargetPathKind where
  | DeeperArray
  | DeeperNested
  | WildcardTypeArgument
  | TypeArgument
deriving DecidableEq

/-- attributes.rs lines 163-167: `TypeAnnotationTargetPathEntry`. -/
structure TypeAnnotTargetPathEntry where
  path_kind : TypeAnnotTargetPathKind
  argument_index : Nat
deriving DecidableEq

/-- attributes.rs lines 169-174: `TypeAnnotation`. -/
structure TypeAnnot where
  target_type : TypeAnnotTarget
  target_path : List TypeAnnotTargetPathEntry
  annotation_value : Annot

/-- attributes.rs lines 176-180. -/
structure BootstrapMethodEntry where
  method : MethodHandle
  arguments : List BootstrapArgument
deriving DecidableEq

/-- attributes.rs lines 190-194; `access_flags` is the validated u16 bit set. -/
structure MethodParameterEntry where
  name : Option String
  access_flags : Nat
deriving DecidableEq

/-- attributes.rs lines 213-218. -/
structure ModuleRequireEntry where
  name : String
  flags : Nat
  version : Option String
deriving DecidableEq

/-- attributes.rs lines 227-232. -/
structure ModuleExportsEntry where
  package_name : String
  flags : Nat
  exports_to : List String
deriving DecidableEq

/-- attributes.rs lines 241-246. -/
structure ModuleOpensEntry where
  package_name : String
  flags : Nat
  opens_to : List String
deriving DecidableEq

/-- attributes.rs lines 248-252. -/
structure ModuleProvidesEntry where
  service_interface_name : String
  provides_with : List String
deriving DecidableEq

/-- attributes.rs lines 254-264. -/
structure ModuleData where
  name : String
  access_flags : Nat
  version : Option String
  requires : List ModuleRequireEntry
  exports : List ModuleExportsEntry
  opens : List ModuleOpensEntry
  uses : List String
  provides : List ModuleProvidesEntry
deriving DecidableEq

mutual

/-- attributes.rs lines 273-305: `AttributeData`, the tagged union over the
recognized attribute kinds. -/
inductive AttributeData where
  | ConstantValue (v : LiteralConstant)
  | Code (cd : CodeData)
  | StackMapTable (frames : List StackMapEntry)
  | Exceptions (names : List String)
  | InnerClasses (entries : List InnerClassEntry)
  | EnclosingMethod (class_name : String) (method : Option NameAndType)
  | Synthetic
  | Signature (s : String)
  | SourceFile (s : String)
  | SourceDebugExtension (s : String)
  | LineNumberTable (entries : List LineNumberEntry)
  | LocalVariableTable (entries : List LocalVariableEntry)
  | LocalVariableTypeTable (entries : List LocalVariableTypeEntry)
  | Deprecated
  | RuntimeVisibleAnnotations (vs : List Annot)
  | RuntimeInvisibleAnnotations (vs : List Annot)
  | RuntimeVisibleParameterAnnotations (vs : List ParameterAnnot)
  | RuntimeInvisibleParameterAnnotations (vs : List ParameterAnnot)
  | RuntimeVisibleTypeAnnotations (vs : List TypeAnnot)
  | RuntimeInvisibleTypeAnnotations (vs : List TypeAnnot)
  | AnnotationDefault (v : AnnotElementValue)
  | BootstrapMethods (entries : List BootstrapMethodEntry)
  | MethodParameters (entries : List MethodParameterEntry)
  | Module (m : ModuleData)
  | ModulePackages (names : List String)
  | ModuleMainClass (name : String)
  | NestHost (name : String)
  | NestMembers (names : List String)
  | Record (components : List RecordComponentEntry)
  | Other (raw : List Nat)

/-- attributes.rs lines 21-29: `CodeData`. -/
inductive CodeData where
  | mk (max_stack : Nat) (max_locals : Nat) (code : List Nat) (bytecode : Option ByteCode)
       (exception_table : List ExceptionTableEntry) (attributes : List AttributeInfo)

/-- attributes.rs lines 307-311: `AttributeInfo`. -/
inductive AttributeInfo where
  | mk (name : String) (data : AttributeData)

/-- attributes.rs lines 266-271: `RecordComponentEntry`. -/
inductive RecordComponentEntry where
  | mk (name : String) (descriptor : String) (attributes : List AttributeInfo)

end

/-- Projection: `CodeData.max_stack`. -/
def CodeData.max_stack : CodeData → Nat
  | .mk v _ _ _ _ _ => v

/-- Projection: `CodeData.max_locals`. -/
def CodeData.max_locals : CodeData → Nat
  | .mk _ v _ _ _ _ => v

/-- Projection: `CodeData.code`. -/
def CodeData.code : CodeData → List Nat
  | .mk _ _ v _ _ _ => v

/-- Projection: `CodeData.bytecode`. -/
def CodeData.bytecode : CodeData → Option ByteCode
  | .mk _ _ _ v _ _ => v

/-- Projection: `CodeData.exception_table`. -/
def CodeData.exception_table : CodeData → List ExceptionTableEntry
  | .mk _ _ _ _ v _ => v

/-- Projection: `CodeData.attributes`. -/
def CodeData.attributes : CodeData → List AttributeInfo
  | .mk _ _ _ _ _ v => v

/-- Projection: `AttributeInfo.name`. -/
def AttributeInfo.name : AttributeInfo → String
  | .mk v _ => v

/-- Projection: `AttributeInfo.data`. -/
def AttributeInfo.data : AttributeInfo → AttributeData
  | .mk _ v => v

/-- Projection: `RecordComponentEntry.name`. -/
def RecordComponentEntry.name : RecordComponentEntry → String
  | .mk v _ _ => v

/-- Projection: `RecordComponentEntry.descriptor`. -/
def RecordComponentEntry.descriptor : RecordComponentEntry → String
  | .mk _ v _ => v

/-- Projection: `RecordComponentEntry.attributes`. -/
def RecordComponentEntry.attributes : RecordComponentEntry → List AttributeInfo
  | .mk _ _ v => v

/-- attributes.rs lines 313-318: `ensure_length`. -/
def ensure_length (length expected : Nat) : Except ParseError Unit :=
  if length ≠ expected then .error ["Unexpected length " ++ toString length]
  else .ok ()

/-- attributes.rs lines 359-379: `read_stackmaptable_verification` — decode
one verification-type tag byte. -/
def read_stackmaptable_verification (bytes : List Nat) (ix : Nat)
    (pool : List ConstantPoolEntry) : Except ParseError (VerificationType × Nat) :=
  match read_u1 bytes ix with
  | .error e => .error e
  | .ok (v, ix₁) =>
    if v = 0 then .ok (.Top, ix₁)
    else if v = 1 then .ok (.Integer, ix₁)
    else if v = 2 then .ok (.Float, ix₁)
    else if v = 3 then .ok (.Double, ix₁)
    else if v = 4 then .ok (.Long, ix₁)
    else if v = 5 then .ok (.Null, ix₁)
    else if v = 6 then .ok (.UninitializedThis, ix₁)
    else if v = 7 then
      match wrapErr "object verification type" (read_cp_classinfo bytes ix₁ pool) with
      | .error e => .error e
      | .ok (class_name, ix₂) => .ok (.Object class_name, ix₂)
    else if v = 8 then
      match read_u2 bytes ix₁ with
      | .error e => .error e
      | .ok (code_offset, ix₂) => .ok (.Uninitialized code_offset, ix₂)
    else .error ["Unrecognized verification type " ++ toString v]

/-- Loop reading `count` verification types, threading the cursor; `ctx j`
is the context frame wrapped around the j-th element's failure (the source
inlines this loop in the append/full-frame arms of lines 405-427). -/
def read_verification_list (bytes : List Nat) (pool : List ConstantPoolEntry)
    (ctx : Nat → String) : Nat → Nat → Nat →
    Except ParseError (List VerificationType × Nat)
  | 0, _, ix => .ok ([], ix)
  | count + 1, j, ix =>
    match wrapErr (ctx j) (read_stackmaptable_verification bytes ix pool) with
    | .error e => .error e
    | .ok (v, ix') =>
      match read_verification_list bytes pool ctx count (j + 1) ix' with
      | .error e => .error e
      | .ok (vs, ix'') => .ok (v :: vs, ix'')

/-- attributes.rs lines 385-428: the per-frame body of
`read_stackmaptable_data` — decode one stack-map frame, dispatching on the
one-byte tag; `i` is the frame counter used in error contexts. -/
def read_stackmap_entry (bytes : List Nat) (ix : Nat) (pool : List ConstantPoolEntry)
    (i : Nat) : Except ParseError (StackMapEntry × Nat) :=
  match read_u1 bytes ix with
  | .error e => .error e
  | .ok (v, ix₁) =>
    if v ≤ 63 then .ok (.Same v, ix₁)
    else if v ≤ 127 then
      match wrapErr ("same_locals_1_stack_item_frame stack map entry " ++ toString i)
          (read_stackmaptable_verification bytes ix₁ pool) with
      | .error e => .error e
      | .ok (stack, ix₂) => .ok (.SameLocals1StackItem (v - 64) stack, ix₂)
    else if v ≤ 246 then
      .error ["stack map entry " ++ toString i, "Unrecognized discriminant " ++ toString v]
    else if v = 247 then
      match read_u2 bytes ix₁ with
      | .error e => .error e
      | .ok (offset_delta, ix₂) =>
        match wrapErr ("same_locals_1_stack_item_frame_extended stack map entry " ++ toString i)
            (read_stackmaptable_verification bytes ix₂ pool) with
        | .error e => .error e
        | .ok (stack, ix₃) => .ok (.SameLocals1StackItem offset_delta stack, ix₃)
    else if v ≤ 250 then
      match read_u2 bytes ix₁ with
      | .error e => .error e
      | .ok (offset_delta, ix₂) => .ok (.Chop offset_delta (251 - v), ix₂)
    else if v = 251 then
      match read_u2 bytes ix₁ with
      | .error e => .error e
      | .ok (offset_delta, ix₂) => .ok (.Same offset_delta, ix₂)
    else if v ≤ 254 then
      match read_u2 bytes ix₁ with
      | .error e => .error e
      | .ok (offset_delta, ix₂) =>
        match read_verification_list bytes pool
            (fun j => "local entry " ++ toString j ++ " of append stack map entry " ++ toString i)
            (v - 251) 0 ix₂ with
        | .error e => .error e
        | .ok (locals, ix₃) => .ok (.Append offset_delta locals, ix₃)
    else
      match read_u2 bytes ix₁ with
      | .error e => .error e
      | .ok (offset_delta, ix₂) =>
        match read_u2 bytes ix₂ with
        | .error e => .error e
        | .ok (locals_count, ix₃) =>
          match read_verification_list bytes pool
              (fun j => "local entry " ++ toString j ++ " of full-frame stack map entry " ++ toString i)
              locals_count 0 ix₃ with
          | .error e => .error e
          | .ok (locals, ix₄) =>
            match read_u2 bytes ix₄ with
            | .error e => .error e
            | .ok (stack_count, ix₅) =>
              match read_verification_list bytes pool
                  (fun j => "stack entry " ++ toString j ++ " of full-frame stack map entry " ++ toString i)
                  stack_count 0 ix₅ with
              | .error e => .error e
              | .ok (stack, ix₆) => .ok (.FullFrame offset_delta locals stack, ix₆)

/-- The frame loop of `read_stackmaptable_data` (lines 384-430). -/
def read_stackmap_list (bytes : List Nat) (pool : List ConstantPoolEntry) :
    Nat → Nat → Nat → Except ParseError (List StackMapEntry × Nat)
  | 0, _, ix => .ok ([], ix)
  | count + 1, i, ix =>
    match read_stackmap_entry bytes ix pool i with
    | .error e => .error e
    | .ok (entry, ix') =>
      match read_stackmap_list bytes pool count (i + 1) ix' with
      | .error e => .error e
      | .ok (entries, ix'') => .ok (entry :: entries, ix'')

/-- attributes.rs lines 381-432: `read_stackmaptable_data`. -/
def read_stackmaptable_data (bytes : List Nat) (ix : Nat)
    (pool : List ConstantPoolEntry) : Except ParseError (List StackMapEntry × Nat) :=
  match read_u2 bytes ix with
  | .error e => .error e
  | .ok (count, ix') => read_stackmap_list bytes pool count 0 ix'

/-- The loop of `read_exceptions_data` (lines 437-440). -/
def read_exceptions_list (bytes : List Nat) (pool : List ConstantPoolEntry) :
    Nat → Nat → Nat → Except ParseError (List String × Nat)
  | 0, _, ix => .ok ([], ix)
  | count + 1, i, ix =>
    match wrapErr ("exception " ++ toString i) (read_cp_classinfo bytes ix pool) with
    | .error e => .error e
    | .ok (x, ix') =>
      match read_exceptions_list bytes pool count (i + 1) ix' with
      | .error e => .error e
      | .ok (xs, ix'') => .ok (x :: xs, ix'')

/-- attributes.rs lines 434-442: `read_exceptions_data`. -/
def read_exceptions_data (bytes : List Nat) (ix : Nat)
    (pool : List ConstantPoolEntry) : Except ParseError (List String × Nat) :=
  match read_u2 bytes ix with
  | .error e => .error e
  | .ok (count, ix') => read_exceptions_list bytes pool count 0 ix'

/-- attributes.rs lines 447-458: the per-entry body of
`read_innerclasses_data` — note the flags use lenient
`from_bits_truncate`. -/
def read_innerclass_entry (bytes : List Nat) (ix : Nat) (pool : List ConstantPoolEntry)
    (i : Nat) : Except ParseError (InnerClassEntry × Nat) :=
  match wrapErr ("inner class info for inner class " ++ toString i)
      (read_cp_classinfo bytes ix pool) with
  | .error e => .error e
  | .ok (inner_class_info, ix₁) =>
    match wrapErr ("outer class info for inner class " ++ toString i)
        (read_cp_classinfo_opt bytes ix₁ pool) with
    | .error e => .error e
    | .ok (outer_class_info, ix₂) =>
      match wrapErr ("inner name for inner class " ++ toString i)
          (read_cp_utf8_opt bytes ix₂ pool) with
      | .error e => .error e
      | .ok (inner_name, ix₃) =>
        match read_u2 bytes ix₃ with
        | .error e => .error e
        | .ok (raw, ix₄) =>
          .ok (⟨inner_class_info, outer_class_info, inner_name,
                from_bits_truncate innerclass_mask raw⟩, ix₄)

/-- The loop of `read_innerclasses_data` (lines 447-458). -/
def read_innerclasses_list (bytes : List Nat) (pool : List ConstantPoolEntry) :
    Nat → Nat → Nat → Except ParseError (List InnerClassEntry × Nat)
  | 0, _, ix => .ok ([], ix)
  | count + 1, i, ix =>
    match read_innerclass_entry bytes ix pool i with
    | .error e => .error e
    | .ok (x, ix') =>
      match read_innerclasses_list bytes pool count (i + 1) ix' with
      | .error e => .error e
      | .ok (xs, ix'') => .ok (x :: xs, ix'')

/-- attributes.rs lines 444-460: `read_innerclasses_data`. -/
def read_innerclasses_data (bytes : List Nat) (ix : Nat)
    (pool : List ConstantPoolEntry) : Except ParseError (List InnerClassEntry × Nat) :=
  match read_u2 bytes ix with
  | .error e => .error e
  | .ok (count, ix') => read_innerclasses_list bytes pool count 0 ix'

/-- The loop of `read_linenumber_data` (lines 465-472). -/
def read_linenumber_list (bytes : List Nat) :
    Nat → Nat → Except ParseError (List LineNumberEntry × Nat)
  | 0, ix => .ok ([], ix)
  | count + 1, ix =>
    match read_u2 bytes ix with
    | .error e => .error e
    | .ok (start_pc, ix₁) =>
      match read_u2 bytes ix₁ with
      | .error e => .error e
      | .ok (line_number, ix₂) =>
        match read_linenumber_list bytes count ix₂ with
        | .error e => .error e
        | .ok (xs, ix₃) => .ok (⟨start_pc, line_number⟩ :: xs, ix₃)

/-- attributes.rs lines 462-474: `read_linenumber_data`. -/
def read_linenumber_data (bytes : List Nat) (ix : Nat) :
    Except ParseError (List LineNumberEntry × Nat) :=
  match read_u2 bytes ix with
  | .error e => .error e
  | .ok (count, ix') => read_linenumber_list bytes count ix'

/-- attributes.rs lines 479-498: the per-entry body of
`read_localvariable_data` — the name must be an unqualified name and the
descriptor a field descriptor. -/
def read_localvariable_entry (bytes : List Nat) (ix : Nat) (pool : List ConstantPoolEntry)
    (i : Nat) : Except ParseError (LocalVariableEntry × Nat) :=
  match read_u2 bytes ix with
  | .error e => .error e
  | .ok (start_pc, ix₁) =>
    match read_u2 bytes ix₁ with
    | .error e => .error e
    | .ok (length, ix₂) =>
      match wrapErr ("name for variable " ++ toString i) (read_cp_utf8 bytes ix₂ pool) with
      | .error e => .error e
      | .ok (name, ix₃) =>
        if ¬ is_unqualified_name name false false then
          .error ["Invalid unqualified name for variable " ++ toString i]
        else
          match wrapErr ("descriptor for variable " ++ toString i)
              (read_cp_utf8 bytes ix₃ pool) with
          | .error e => .error e
          | .ok (descriptor, ix₄) =>
            if ¬ is_field_descriptor descriptor then
              .error ["Invalid descriptor for variable " ++ toString i]
            else
              match read_u2 bytes ix₄ with
              | .error e => .error e
              | .ok (index, ix₅) =>
                .ok (⟨start_pc, length, name, descriptor, index⟩, ix₅)

/-- The loop of `read_localvariable_data` (lines 479-498). -/
def read_localvariable_list (bytes : List Nat) (pool : List ConstantPoolEntry) :
    Nat → Nat → Nat → Except ParseError (List LocalVariableEntry × Nat)
  | 0, _, ix => .ok ([], ix)
  | count + 1, i, ix =>
    match read_localvariable_entry bytes ix pool i with
    | .error e => .error e
    | .ok (x, ix') =>
      match read_localvariable_list bytes pool count (i + 1) ix' with
      | .error e => .error e
      | .ok (xs, ix'') => .ok (x :: xs, ix'')

/-- attributes.rs lines 476-500: `read_localvariable_data`. -/
def read_localvariable_data (bytes : List Nat) (ix : Nat)
    (pool : List ConstantPoolEntry) : Except ParseError (List LocalVariableEntry × Nat) :=
  match read_u2 bytes ix with
  | .error e => .error e
  | .ok (count, ix') => read_localvariable_list bytes pool count 0 ix'

/-- attributes.rs lines 505-521: the per-entry body of
`read_localvariabletype_data` — the name is validated; the signature string
is read without any descriptor validation. -/
def read_localvariabletype_entry (bytes : List Nat) (ix : Nat)
    (pool : List ConstantPoolEntry) (i : Nat) :
    Except ParseError (LocalVariableTypeEntry × Nat) :=
  match read_u2 bytes ix with
  | .error e => .error e
  | .ok (start_pc, ix₁) =>
    match read_u2 bytes ix₁ with
    | .error e => .error e
    | .ok (length, ix₂) =>
      match wrapErr ("name for variable " ++ toString i) (read_cp_utf8 bytes ix₂ pool) with
      | .error e => .error e
      | .ok (name, ix₃) =>
        if ¬ is_unqualified_name name false false then
          .error ["Invalid unqualified name for variable " ++ toString i]
        else
          match wrapErr ("signature for variable " ++ toString i)
              (read_cp_utf8 bytes ix₃ pool) with
          | .error e => .error e
          | .ok (signature, ix₄) =>
            match read_u2 bytes ix₄ with
            | .error e => .error e
            | .ok (index, ix₅) =>
              .ok (⟨start_pc, length, name, signature, index⟩, ix₅)

/-- The loop of `read_localvariabletype_data` (lines 505-521). -/
def read_localvariabletype_list (bytes : List Nat) (pool : List ConstantPoolEntry) :
    Nat → Nat → Nat → Except ParseError (List LocalVariableTypeEntry × Nat)
  | 0, _, ix => .ok ([], ix)
  | count + 1, i, ix =>
    match read_localvariabletype_entry bytes ix pool i with
    | .error e => .error e
    | .ok (x, ix') =>
      match read_localvariabletype_list bytes pool count (i + 1) ix' with
      | .error e => .error e
      | .ok (xs, ix'') => .ok (x :: xs, ix'')

/-- attributes.rs lines 502-523: `read_localvariabletype_data`. -/
def read_localvariabletype_data (bytes : List Nat) (ix : Nat)
    (pool : List ConstantPoolEntry) : Except ParseError (List LocalVariableTypeEntry × Nat) :=
  match read_u2 bytes ix with
  | .error e => .error e
  | .ok (count, ix') => read_localvariabletype_list bytes pool count 0 ix'

mutual

/-- attributes.rs lines 525-563: `read_annotation_element_value` — dispatch
on one ASCII discriminant byte.  `fuel` bounds the structural recursion
(the source recurses through nested annotations and arrays); it only ever
produces the fuel-exhaustion error on inputs deeper than `fuel`. -/
def read_annot_element_value (fuel : Nat) (bytes : List Nat) (ix : Nat)
    (pool : List ConstantPoolEntry) : Except ParseError (AnnotElementValue × Nat) :=
  match fuel with
  | 0 => .error ["recursion limit reached"]
  | fuel + 1 =>
    match read_u1 bytes ix with
    | .error e => .error e
    | .ok (tag, ix₁) =>
      if tag = 'B'.toNat then
        match read_cp_integer bytes ix₁ pool with
        | .error e => .error e
        | .ok (v, ix₂) => .ok (.ByteConstant v, ix₂)
      else if tag = 'C'.toNat then
        match read_cp_integer bytes ix₁ pool with
        | .error e => .error e
        | .ok (v, ix₂) => .ok (.CharConstant v, ix₂)
      else if tag = 'D'.toNat then
        match read_cp_double bytes ix₁ pool with
        | .error e => .error e
        | .ok (v, ix₂) => .ok (.DoubleConstant v, ix₂)
      else if tag = 'F'.toNat then
        match read_cp_float bytes ix₁ pool with
        | .error e => .error e
        | .ok (v, ix₂) => .ok (.FloatConstant v, ix₂)
      else if tag = 'I'.toNat then
        match read_cp_integer bytes ix₁ pool with
        | .error e => .error e
        | .ok (v, ix₂) => .ok (.IntConstant v, ix₂)
      else if tag = 'J'.toNat then
        match read_cp_long bytes ix₁ pool with
        | .error e => .error e
        | .ok (v, ix₂) => .ok (.LongConstant v, ix₂)
      else if tag = 'S'.toNat then
        match read_cp_integer bytes ix₁ pool with
        | .error e => .error e
        | .ok (v, ix₂) => .ok (.ShortConstant v, ix₂)
      else if tag = 'Z'.toNat then
        match read_cp_integer bytes ix₁ pool with
        | .error e => .error e
        | .ok (v, ix₂) => .ok (.BooleanConstant v, ix₂)
      else if tag = 's'.toNat then
        match read_cp_utf8 bytes ix₁ pool with
        | .error e => .error e
        | .ok (s, ix₂) => .ok (.StringConstant s, ix₂)
      else if tag = 'e'.toNat then
        match read_cp_utf8 bytes ix₁ pool with
        | .error e => .error e
        | .ok (type_name, ix₂) =>
          if ¬ is_field_descriptor type_name then .error ["Invalid enum descriptor"]
          else
            match read_cp_utf8 bytes ix₂ pool with
            | .error e => .error e
            | .ok (const_name, ix₃) => .ok (.EnumConstant type_name const_name, ix₃)
      else if tag = 'c'.toNat then
        match read_cp_utf8 bytes ix₁ pool with
        | .error e => .error e
        | .ok (class_name, ix₂) =>
          if ¬ is_return_descriptor class_name then .error ["Invalid classinfo descriptor"]
          else .ok (.ClassLiteral class_name, ix₂)
      else if tag = '@'.toNat then
        match read_annot fuel bytes ix₁ pool with
        | .error e => .error e
        | .ok (a, ix₂) => .ok (.AnnotationValue a.type_descriptor a.elements, ix₂)
      else if tag = '['.toNat then
        match read_u2 bytes ix₁ with
        | .error e => .error e
        | .ok (count, ix₂) =>
          match read_annot_element_value_list fuel bytes ix₂ pool count 0 with
          | .error e => .error e
          | .ok (vs, ix₃) => .ok (.ArrayValue vs, ix₃)
      else .error ["Unrecognized discriminant " ++ toString tag]

termination_by structural fuel

/-- The array loop in the `[` arm of lines 552-559; `j` is the running array
index used in error contexts. -/
def read_annot_element_value_list (fuel : Nat) (bytes : List Nat) (ix : Nat)
    (pool : List ConstantPoolEntry) (count j : Nat) :
    Except ParseError (List AnnotElementValue × Nat) :=
  match fuel with
  | 0 => .error ["recursion limit reached"]
  | fuel + 1 =>
    match count with
    | 0 => .ok ([], ix)
    | count + 1 =>
      match wrapErr ("array index " ++ toString j)
          (read_annot_element_value fuel bytes ix pool) with
      | .error e => .error e
      | .ok (v, ix') =>
        match read_annot_element_value_list fuel bytes ix' pool count (j + 1) with
        | .error e => .error e
        | .ok (vs, ix'') => .ok (v :: vs, ix'')

termination_by structural fuel

/-- attributes.rs lines 565-584: `read_annotation` — the type descriptor must
be a field descriptor, then a u16-counted element list follows. -/
def read_annot (fuel : Nat) (bytes : List Nat) (ix : Nat)
    (pool : List ConstantPoolEntry) : Except ParseError (Annot × Nat) :=
  match fuel with
  | 0 => .error ["recursion limit reached"]
  | fuel + 1 =>
    match wrapErr "type descriptor field" (read_cp_utf8 bytes ix pool) with
    | .error e => .error e
    | .ok (type_descriptor, ix₁) =>
      if ¬ is_field_descriptor type_descriptor then .error ["Invalid descriptor"]
      else
        match read_u2 bytes ix₁ with
        | .error e => .error e
        | .ok (element_count, ix₂) =>
          match read_annot_elements fuel bytes ix₂ pool element_count 0 with
          | .error e => .error e
          | .ok (elements, ix₃) => .ok (⟨type_descriptor, elements⟩, ix₃)

termination_by structural fuel

/-- The element loop of lines 572-579: each element is a pool name followed
by a recursively decoded value. -/
def read_annot_elements (fuel : Nat) (bytes : List Nat) (ix : Nat)
    (pool : List ConstantPoolEntry) (count j : Nat) :
    Except ParseError (List (String × AnnotElementValue) × Nat) :=
  match fuel with
  | 0 => .error ["recursion limit reached"]
  | fuel + 1 =>
    match count with
    | 0 => .ok ([], ix)
    | count + 1 =>
      match wrapErr ("name of element " ++ toString j) (read_cp_utf8 bytes ix pool) with
      | .error e => .error e
      | .ok (name, ix₁) =>
        match wrapErr ("value of element " ++ toString j)
            (read_annot_element_value fuel bytes ix₁ pool) with
        | .error e => .error e
        | .ok (value, ix₂) =>
          match read_annot_elements fuel bytes ix₂ pool count (j + 1) with
          | .error e => .error e
          | .ok (vs, ix₃) => .ok ((name, value) :: vs, ix₃)

termination_by structural fuel

end

/-- The loop of `read_annotation_data` (lines 589-591). -/
def read_annot_list (fuel : Nat) (bytes : List Nat) (pool : List ConstantPoolEntry) :
    Nat → Nat → Nat → Except ParseError (List Annot × Nat)
  | 0, _, ix => .ok ([], ix)
  | count + 1, i, ix =>
    match wrapErr ("annotation " ++ toString i) (read_annot fuel bytes ix pool) with
    | .error e => .error e
    | .ok (x, ix') =>
      match read_annot_list fuel bytes pool count (i + 1) ix' with
      | .error e => .error e
      | .ok (xs, ix'') => .ok (x :: xs, ix'')

/-- attributes.rs lines 586-593: `read_annotation_data`. -/
def read_annot_data (fuel : Nat) (bytes : List Nat) (ix : Nat)
    (pool : List ConstantPoolEntry) : Except ParseError (List Annot × Nat) :=
  match read_u2 bytes ix with
  | .error e => .error e
  | .ok (count, ix') => read_annot_list fuel bytes pool count 0 ix'

/-- The inner annotation loop of `read_parameter_annotation_data`
(lines 601-603). -/
def read_parameter_annot_inner (fuel : Nat) (bytes : List Nat)
    (pool : List ConstantPoolEntry) (i : Nat) :
    Nat → Nat → Nat → Except ParseError (List Annot × Nat)
  | 0, _, ix => .ok ([], ix)
  | count + 1, j, ix =>
    match wrapErr ("annotation " ++ toString j ++ " of parameter " ++ toString i)
        (read_annot fuel bytes ix pool) with
    | .error e => .error e
    | .ok (x, ix') =>
      match read_parameter_annot_inner fuel bytes pool i count (j + 1) ix' with
      | .error e => .error e
      | .ok (xs, ix'') => .ok (x :: xs, ix'')

/-- The outer parameter loop of `read_parameter_annotation_data`
(lines 598-607). -/
def read_parameter_annot_list (fuel : Nat) (bytes : List Nat)
    (pool : List ConstantPoolEntry) :
    Nat → Nat → Nat → Except ParseError (List ParameterAnnot × Nat)
  | 0, _, ix => .ok ([], ix)
  | count + 1, i, ix =>
    match read_u2 bytes ix with
    | .error e => .error e
    | .ok (annotation_count, ix₁) =>
      match read_parameter_annot_inner fuel bytes pool i annotation_count 0 ix₁ with
      | .error e => .error e
      | .ok (annotations, ix₂) =>
        match read_parameter_annot_list fuel bytes pool count (i + 1) ix₂ with
        | .error e => .error e
        | .ok (xs, ix₃) => .ok (⟨annotations⟩ :: xs, ix₃)

/-- attributes.rs lines 595-609: `read_parameter_annotation_data` — note the
u8 outer count. -/
def read_parameter_annot_data (fuel : Nat) (bytes : List Nat) (ix : Nat)
    (pool : List ConstantPoolEntry) : Except ParseError (List ParameterAnnot × Nat) :=
  match read_u1 bytes ix with
  | .error e => .error e
  | .ok (count, ix') => read_parameter_annot_list fuel bytes pool count 0 ix'

/-- The local-variable-target loop in the 0x40/0x41 arm of
`read_type_annotation_data` (lines 622-636). -/
def read_localvar_target_list (bytes : List Nat) :
    Nat → Nat → Except ParseError (List TypeAnnotationLocalVarTargetEntry × Nat)
  | 0, ix => .ok ([], ix)
  | count + 1, ix =>
    match read_u2 bytes ix with
    | .error e => .error e
    | .ok (start_pc, ix₁) =>
      match read_u2 bytes ix₁ with
      | .error e => .error e
      | .ok (length, ix₂) =>
        match read_u2 bytes ix₂ with
        | .error e => .error e
        | .ok (index, ix₃) =>
          match read_localvar_target_list bytes count ix₃ with
          | .error e => .error e
          | .ok (xs, ix₄) => .ok (⟨start_pc, length, index⟩ :: xs, ix₄)

/-- attributes.rs lines 615-641: the target_type dispatch of
`read_type_annotation_data` — decode one target, dispatching on the u8
target_type; `i` is the annotation counter used in error contexts. -/
def read_type_annot_target (bytes : List Nat) (ix : Nat) (pool : List ConstantPoolEntry)
    (i : Nat) : Except ParseError (TypeAnnotTarget × Nat) :=
  match read_u1 bytes ix with
  | .error e => .error e
  | .ok (v, ix₁) =>
    if v = 0x00 ∨ v = 0x01 then
      match read_u1 bytes ix₁ with
      | .error e => .error e
      | .ok (index, ix₂) => .ok (.TypeParameter index, ix₂)
    else if v = 0x10 then
      match read_u2 bytes ix₁ with
      | .error e => .error e
      | .ok (index, ix₂) => .ok (.Supertype index, ix₂)
    else if v = 0x11 ∨ v = 0x12 then
      match read_u1 bytes ix₁ with
      | .error e => .error e
      | .ok (tpi, ix₂) =>
        match read_u1 bytes ix₂ with
        | .error e => .error e
        | .ok (bi, ix₃) => .ok (.TypeParameterBound tpi bi, ix₃)
    else if v = 0x13 ∨ v = 0x14 ∨ v = 0x15 then .ok (.Empty, ix₁)
    else if v = 0x16 then
      match read_u1 bytes ix₁ with
      | .error e => .error e
      | .ok (index, ix₂) => .ok (.FormalParameter index, ix₂)
    else if v = 0x17 then
      match read_u2 bytes ix₁ with
      | .error e => .error e
      | .ok (index, ix₂) => .ok (.Throws index, ix₂)
    else if v = 0x40 ∨ v = 0x41 then
      match read_u2 bytes ix₁ with
      | .error e => .error e
      | .ok (localvar_count, ix₂) =>
        match read_localvar_target_list bytes localvar_count ix₂ with
        | .error e => .error e
        | .ok (localvars, ix₃) => .ok (.LocalVar localvars, ix₃)
    else if v = 0x42 then
      match read_u2 bytes ix₁ with
      | .error e => .error e
      | .ok (index, ix₂) => .ok (.Catch index, ix₂)
    else if v = 0x43 ∨ v = 0x44 ∨ v = 0x45 ∨ v = 0x46 then
      match read_u2 bytes ix₁ with
      | .error e => .error e
      | .ok (offset, ix₂) => .ok (.Offset offset, ix₂)
    else if v = 0x47 ∨ v = 0x48 ∨ v = 0x49 ∨ v = 0x4A ∨ v = 0x4B then
      match read_u2 bytes ix₁ with
      | .error e => .error e
      | .ok (offset, ix₂) =>
        match read_u1 bytes ix₂ with
        | .error e => .error e
        | .ok (tai, ix₃) => .ok (.TypeArgument offset tai, ix₃)
    else
      .error ["type annotation " ++ toString i, "Unrecognized target type " ++ toString v]

/-- attributes.rs lines 645-656: one target-path element — the path kind must
be 0, 1, 2 or 3; `j` and `i` are the loop counters used in error contexts. -/
def read_type_annot_path_entry (bytes : List Nat) (ix : Nat) (j i : Nat) :
    Except ParseError (TypeAnnotTargetPathEntry × Nat) :=
  match read_u1 bytes ix with
  | .error e => .error e
  | .ok (v, ix₁) =>
    if v ≤ 3 then
      let path_kind : TypeAnnotTargetPathKind :=
        if v = 0 then .DeeperArray
        else if v = 1 then .DeeperNested
        else if v = 2 then .WildcardTypeArgument
        else .TypeArgument
      match read_u1 bytes ix₁ with
      | .error e => .error e
      | .ok (argument_index, ix₂) => .ok (⟨path_kind, argument_index⟩, ix₂)
    else
      .error ["path element " ++ toString j ++ " of type annotation " ++ toString i,
              "Unrecognized path kind " ++ toString v]

/-- The target-path loop of lines 642-657. -/
def read_type_annot_path (bytes : List Nat) (i : Nat) :
    Nat → Nat → Nat → Except ParseError (List TypeAnnotTargetPathEntry × Nat)
  | 0, _, ix => .ok ([], ix)
  | count + 1, j, ix =>
    match read_type_annot_path_entry bytes ix j i with
    | .error e => .error e
    | .ok (x, ix') =>
      match read_type_annot_path bytes i count (j + 1) ix' with
      | .error e => .error e
      | .ok (xs, ix'') => .ok (x :: xs, ix'')

/-- attributes.rs lines 615-663: the per-annotation body of
`read_type_annotation_data`: target, u8-counted target path, then the
annotation proper. -/
def read_type_annot_entry (fuel : Nat) (bytes : List Nat) (ix : Nat)
    (pool : List ConstantPoolEntry) (i : Nat) : Except ParseError (TypeAnnot × Nat) :=
  match read_type_annot_target bytes ix pool i with
  | .error e => .error e
  | .ok (target_type, ix₁) =>
    match read_u1 bytes ix₁ with
    | .error e => .error e
    | .ok (path_count, ix₂) =>
      match read_type_annot_path bytes i path_count 0 ix₂ with
      | .error e => .error e
      | .ok (target_path, ix₃) =>
        match wrapErr ("type annotation " ++ toString i) (read_annot fuel bytes ix₃ pool) with
        | .error e => .error e
        | .ok (a, ix₄) => .ok (⟨target_type, target_path, a⟩, ix₄)

/-- The annotation loop of lines 614-664. -/
def read_type_annot_list (fuel : Nat) (bytes : List Nat) (pool : List ConstantPoolEntry) :
    Nat → Nat → Nat → Except ParseError (List TypeAnnot × Nat)
  | 0, _, ix => .ok ([], ix)
  | count + 1, i, ix =>
    match read_type_annot_entry fuel bytes ix pool i with
    | .error e => .error e
    | .ok (x, ix') =>
      match read_type_annot_list fuel bytes pool count (i + 1) ix' with
      | .error e => .error e
      | .ok (xs, ix'') => .ok (x :: xs, ix'')

/-- attributes.rs lines 611-666: `read_type_annotation_data`. -/
def read_type_annot_data (fuel : Nat) (bytes : List Nat) (ix : Nat)
    (pool : List ConstantPoolEntry) : Except ParseError (List TypeAnnot × Nat) :=
  match read_u2 bytes ix with
  | .error e => .error e
  | .ok (count, ix') => read_type_annot_list fuel bytes pool count 0 ix'

/-- The argument loop of `read_bootstrapmethods_data` (lines 675-678). -/
def read_bootstrap_arguments (bytes : List Nat) (pool : List ConstantPoolEntry) (i : Nat) :
    Nat → Nat → Nat → Except ParseError (List BootstrapArgument × Nat)
  | 0, _, ix => .ok ([], ix)
  | count + 1, j, ix =>
    match wrapErr ("argument " ++ toString j ++ " of bootstrap method " ++ toString i)
        (read_cp_bootstrap_argument bytes ix pool) with
    | .error e => .error e
    | .ok (x, ix') =>
      match read_bootstrap_arguments bytes pool i count (j + 1) ix' with
      | .error e => .error e
      | .ok (xs, ix'') => .ok (x :: xs, ix'')

/-- attributes.rs lines 671-683: the per-method body of
`read_bootstrapmethods_data`. -/
def read_bootstrapmethod_entry (bytes : List Nat) (ix : Nat)
    (pool : List ConstantPoolEntry) (i : Nat) :
    Except ParseError (BootstrapMethodEntry × Nat) :=
  match wrapErr ("method ref of bootstrap method " ++ toString i)
      (read_cp_methodhandle bytes ix pool) with
  | .error e => .error e
  | .ok (method, ix₁) =>
    match read_u2 bytes ix₁ with
    | .error e => .error e
    | .ok (arg_count, ix₂) =>
      match read_bootstrap_arguments bytes pool i arg_count 0 ix₂ with
      | .error e => .error e
      | .ok (arguments, ix₃) => .ok (⟨method, arguments⟩, ix₃)

/-- The loop of `read_bootstrapmethods_data` (lines 671-683). -/
def read_bootstrapmethods_list (bytes : List Nat) (pool : List ConstantPoolEntry) :
    Nat → Nat → Nat → Except ParseError (List BootstrapMethodEntry × Nat)
  | 0, _, ix => .ok ([], ix)
  | count + 1, i, ix =>
    match read_bootstrapmethod_entry bytes ix pool i with
    | .error e => .error e
    | .ok (x, ix') =>
      match read_bootstrapmethods_list bytes pool count (i + 1) ix' with
      | .error e => .error e
      | .ok (xs, ix'') => .ok (x :: xs, ix'')

/-- attributes.rs lines 668-685: `read_bootstrapmethods_data`. -/
def read_bootstrapmethods_data (bytes : List Nat) (ix : Nat)
    (pool : List ConstantPoolEntry) : Except ParseError (List BootstrapMethodEntry × Nat) :=
  match read_u2 bytes ix with
  | .error e => .error e
  | .ok (count, ix') => read_bootstrapmethods_list bytes pool count 0 ix'

/-- attributes.rs lines 690-699: the per-parameter body of
`read_methodparameters_data` — the optional name is validated and the flags
use strict `from_bits`. -/
def read_methodparameter_entry (bytes : List Nat) (ix : Nat)
    (pool : List ConstantPoolEntry) (i : Nat) :
    Except ParseError (MethodParameterEntry × Nat) :=
  match wrapErr ("name of method parameter " ++ toString i)
      (read_cp_utf8_opt bytes ix pool) with
  | .error e => .error e
  | .ok (name, ix₁) =>
    if name.isSome ∧ ¬ is_unqualified_name name.get! false false then
      .error ["Invalid unqualified name for variable " ++ toString i]
    else
      match read_u2 bytes ix₁ with
      | .error e => .error e
      | .ok (raw, ix₂) =>
        match from_bits methodparameter_mask raw with
        | none => .error ["method parameter " ++ toString i, "Invalid access flags found"]
        | some flags => .ok (⟨name, flags⟩, ix₂)

/-- The loop of `read_methodparameters_data` (lines 690-700). -/
def read_methodparameters_list (bytes : List Nat) (pool : List ConstantPoolEntry) :
    Nat → Nat → Nat → Except ParseError (List MethodParameterEntry × Nat)
  | 0, _, ix => .ok ([], ix)
  | count + 1, i, ix =>
    match read_methodparameter_entry bytes ix pool i with
    | .error e => .error e
    | .ok (x, ix') =>
      match read_methodparameters_list bytes pool count (i + 1) ix' with
      | .error e => .error e
      | .ok (xs, ix'') => .ok (x :: xs, ix'')

/-- attributes.rs lines 687-702: `read_methodparameters_data` — note the u8
outer count. -/
def read_methodparameters_data (bytes : List Nat) (ix : Nat)
    (pool : List ConstantPoolEntry) : Except ParseError (List MethodParameterEntry × Nat) :=
  match read_u1 bytes ix with
  | .error e => .error e
  | .ok (count, ix') => read_methodparameters_list bytes pool count 0 ix'

/-- attributes.rs lines 710-716: the per-entry body of the requires loop of
`read_module_data` — strict `from_bits`. -/
def read_module_requires_entry (bytes : List Nat) (ix : Nat)
    (pool : List ConstantPoolEntry) (i : Nat) :
    Except ParseError (ModuleRequireEntry × Nat) :=
  match wrapErr ("name of requires entry " ++ toString i)
      (read_cp_moduleinfo bytes ix pool) with
  | .error e => .error e
  | .ok (name, ix₁) =>
    match read_u2 bytes ix₁ with
    | .error e => .error e
    | .ok (raw, ix₂) =>
      match from_bits modulerequires_mask raw with
      | none => .error ["entry " ++ toString i, "Invalid module requires flags"]
      | some flags =>
        match wrapErr ("version of requires entry " ++ toString i)
            (read_cp_utf8_opt bytes ix₂ pool) with
        | .error e => .error e
        | .ok (version, ix₃) => .ok (⟨name, flags, version⟩, ix₃)

/-- The requires loop of `read_module_data` (lines 708-716). -/
def read_module_requires_list (bytes : List Nat) (pool : List ConstantPoolEntry) :
    Nat → Nat → Nat → Except ParseError (List ModuleRequireEntry × Nat)
  | 0, _, ix => .ok ([], ix)
  | count + 1, i, ix =>
    match read_module_requires_entry bytes ix pool i with
    | .error e => .error e
    | .ok (x, ix') =>
      match read_module_requires_list bytes pool count (i + 1) ix' with
      | .error e => .error e
      | .ok (xs, ix'') => .ok (x :: xs, ix'')

/-- The exports_to loop of `read_module_data` (lines 722-726). -/
def read_module_to_list (bytes : List Nat) (pool : List ConstantPoolEntry)
    (ctx : Nat → String) : Nat → Nat → Nat → Except ParseError (List String × Nat)
  | 0, _, ix => .ok ([], ix)
  | count + 1, j, ix =>
    match wrapErr (ctx j) (read_cp_moduleinfo bytes ix pool) with
    | .error e => .error e
    | .ok (x, ix') =>
      match read_module_to_list bytes pool ctx count (j + 1) ix' with
      | .error e => .error e
      | .ok (xs, ix'') => .ok (x :: xs, ix'')

/-- attributes.rs lines 719-731: the per-entry body of the exports loop of
`read_module_data` — strict `from_bits`. -/
def read_module_exports_entry (bytes : List Nat) (ix : Nat)
    (pool : List ConstantPoolEntry) (i : Nat) :
    Except ParseError (ModuleExportsEntry × Nat) :=
  match wrapErr ("package name of exports entry " ++ toString i)
      (read_cp_packageinfo bytes ix pool) with
  | .error e => .error e
  | .ok (package_name, ix₁) =>
    match read_u2 bytes ix₁ with
    | .error e => .error e
    | .ok (raw, ix₂) =>
      match from_bits moduleexports_mask raw with
      | none => .error ["entry " ++ toString i, "Invalid module exports flags"]
      | some flags =>
        match read_u2 bytes ix₂ with
        | .error e => .error e
        | .ok (to_count, ix₃) =>
          match read_module_to_list bytes pool
              (fun j => "name of exports_to entry " ++ toString j ++
                        " of exports entry " ++ toString i) to_count 0 ix₃ with
          | .error e => .error e
          | .ok (exports_to, ix₄) => .ok (⟨package_name, flags, exports_to⟩, ix₄)

/-- The exports loop of `read_module_data` (lines 717-732). -/
def read_module_exports_list (bytes : List Nat) (pool : List ConstantPoolEntry) :
    Nat → Nat → Nat → Except ParseError (List ModuleExportsEntry × Nat)
  | 0, _, ix => .ok ([], ix)
  | count + 1, i, ix =>
    match read_module_exports_entry bytes ix pool i with
    | .error e => .error e
    | .ok (x, ix') =>
      match read_module_exports_list bytes pool count (i + 1) ix' with
      | .error e => .error e
      | .ok (xs, ix'') => .ok (x :: xs, ix'')

/-- attributes.rs lines 735-747: the per-entry body of the opens loop of
`read_module_data` — strict `from_bits`. -/
def read_module_opens_entry (bytes : List Nat) (ix : Nat)
    (pool : List ConstantPoolEntry) (i : Nat) :
    Except ParseError (ModuleOpensEntry × Nat) :=
  match wrapErr ("package name of opens entry " ++ toString i)
      (read_cp_packageinfo bytes ix pool) with
  | .error e => .error e
  | .ok (package_name, ix₁) =>
    match read_u2 bytes ix₁ with
    | .error e => .error e
    | .ok (raw, ix₂) =>
      match from_bits moduleopens_mask raw with
      | none => .error ["entry " ++ toString i, "Invalid module opens flags"]
      | some flags =>
        match read_u2 bytes ix₂ with
        | .error e => .error e
        | .ok (to_count, ix₃) =>
          match read_module_to_list bytes pool
              (fun j => "name of opens_to entry " ++ toString j ++
                        " of opens entry " ++ toString i) to_count 0 ix₃ with
          | .error e => .error e
          | .ok (opens_to, ix₄) => .ok (⟨package_name, flags, opens_to⟩, ix₄)

/-- The opens loop of `read_module_data` (lines 733-748). -/
def read_module_opens_list (bytes : List Nat) (pool : List ConstantPoolEntry) :
    Nat → Nat → Nat → Except ParseError (List ModuleOpensEntry × Nat)
  | 0, _, ix => .ok ([], ix)
  | count + 1, i, ix =>
    match read_module_opens_entry bytes ix pool i with
    | .error e => .error e
    | .ok (x, ix') =>
      match read_module_opens_list bytes pool count (i + 1) ix' with
      | .error e => .error e
      | .ok (xs, ix'') => .ok (x :: xs, ix'')

/-- The uses loop of `read_module_data` (lines 749-753). -/
def read_module_uses_list (bytes : List Nat) (pool : List ConstantPoolEntry) :
    Nat → Nat → Nat → Except ParseError (List String × Nat)
  | 0, _, ix => .ok ([], ix)
  | count + 1, i, ix =>
    match wrapErr ("name of uses entry " ++ toString i)
        (read_cp_classinfo bytes ix pool) with
    | .error e => .error e
    | .ok (x, ix') =>
      match read_module_uses_list bytes pool count (i + 1) ix' with
      | .error e => .error e
      | .ok (xs, ix'') => .ok (x :: xs, ix'')

/-- The provides_with loop of `read_module_data` (lines 759-762). -/
def read_module_provides_with_list (bytes : List Nat) (pool : List ConstantPoolEntry)
    (i : Nat) : Nat → Nat → Nat → Except ParseError (List String × Nat)
  | 0, _, ix => .ok ([], ix)
  | count + 1, j, ix =>
    match wrapErr ("provides_with entry " ++ toString j ++ " of provides entry " ++ toString i)
        (read_cp_classinfo bytes ix pool) with
    | .error e => .error e
    | .ok (x, ix') =>
      match read_module_provides_with_list bytes pool i count (j + 1) ix' with
      | .error e => .error e
      | .ok (xs, ix'') => .ok (x :: xs, ix'')

/-- The provides loop of `read_module_data` (lines 754-767). -/
def read_module_provides_list (bytes : List Nat) (pool : List ConstantPoolEntry) :
    Nat → Nat → Nat → Except ParseError (List ModuleProvidesEntry × Nat)
  | 0, _, ix => .ok ([], ix)
  | count + 1, i, ix =>
    match wrapErr ("service interface name of provides entry " ++ toString i)
        (read_cp_classinfo bytes ix pool) with
    | .error e => .error e
    | .ok (service_interface_name, ix₁) =>
      match read_u2 bytes ix₁ with
      | .error e => .error e
      | .ok (with_count, ix₂) =>
        match read_module_provides_with_list bytes pool i with_count 0 ix₂ with
        | .error e => .error e
        | .ok (provides_with, ix₃) =>
          match read_module_provides_list bytes pool count (i + 1) ix₃ with
          | .error e => .error e
          | .ok (xs, ix₄) => .ok (⟨service_interface_name, provides_with⟩ :: xs, ix₄)

/-- attributes.rs lines 704-778: `read_module_data` — module name, strict
module flags, optional version, then requires / exports / opens / uses /
provides sections. -/
def read_module_data (bytes : List Nat) (ix : Nat) (pool : List ConstantPoolEntry) :
    Except ParseError (ModuleData × Nat) :=
  match wrapErr "name" (read_cp_moduleinfo bytes ix pool) with
  | .error e => .error e
  | .ok (name, ix₁) =>
    match read_u2 bytes ix₁ with
    | .error e => .error e
    | .ok (raw, ix₂) =>
      match from_bits module_mask raw with
      | none => .error ["Invalid access flags found"]
      | some access_flags =>
        match wrapErr "version" (read_cp_utf8_opt bytes ix₂ pool) with
        | .error e => .error e
        | .ok (version, ix₃) =>
          match read_u2 bytes ix₃ with
          | .error e => .error e
          | .ok (requires_count, ix₄) =>
            match read_module_requires_list bytes pool requires_count 0 ix₄ with
            | .error e => .error e
            | .ok (requires, ix₅) =>
              match read_u2 bytes ix₅ with
              | .error e => .error e
              | .ok (exports_count, ix₆) =>
                match read_module_exports_list bytes pool exports_count 0 ix₆ with
                | .error e => .error e
                | .ok (exports, ix₇) =>
                  match read_u2 bytes ix₇ with
                  | .error e => .error e
                  | .ok (opens_count, ix₈) =>
                    match read_module_opens_list bytes pool opens_count 0 ix₈ with
                    | .error e => .error e
                    | .ok (opens, ix₉) =>
                      match read_u2 bytes ix₉ with
                      | .error e => .error e
                      | .ok (uses_count, ix₁₀) =>
                        match read_module_uses_list bytes pool uses_count 0 ix₁₀ with
                        | .error e => .error e
                        | .ok (uses, ix₁₁) =>
                          match read_u2 bytes ix₁₁ with
                          | .error e => .error e
                          | .ok (provides_count, ix₁₂) =>
                            match read_module_provides_list bytes pool provides_count 0 ix₁₂ with
                            | .error e => .error e
                            | .ok (provides, ix₁₃) =>
                              .ok (⟨name, access_flags, version, requires, exports,
                                    opens, uses, provides⟩, ix₁₃)

/-- The loop of `read_modulepackages_data` (lines 783-785). -/
def read_modulepackages_list (bytes : List Nat) (pool : List ConstantPoolEntry) :
    Nat → Nat → Nat → Except ParseError (List String × Nat)
  | 0, _, ix => .ok ([], ix)
  | count + 1, i, ix =>
    match wrapErr ("package name " ++ toString i) (read_cp_packageinfo bytes ix pool) with
    | .error e => .error e
    | .ok (x, ix') =>
      match read_modulepackages_list bytes pool count (i + 1) ix' with
      | .error e => .error e
      | .ok (xs, ix'') => .ok (x :: xs, ix'')

/-- attributes.rs lines 780-787: `read_modulepackages_data`. -/
def read_modulepackages_data (bytes : List Nat) (ix : Nat)
    (pool : List ConstantPoolEntry) : Except ParseError (List String × Nat) :=
  match read_u2 bytes ix with
  | .error e => .error e
  | .ok (count, ix') => read_modulepackages_list bytes pool count 0 ix'

/-- The loop of `read_nestmembers_data` (lines 792-794). -/
def read_nestmembers_list (bytes : List Nat) (pool : List ConstantPoolEntry) :
    Nat → Nat → Nat → Except ParseError (List String × Nat)
  | 0, _, ix => .ok ([], ix)
  | count + 1, i, ix =>
    match wrapErr ("class name " ++ toString i) (read_cp_classinfo bytes ix pool) with
    | .error e => .error e
    | .ok (x, ix') =>
      match read_nestmembers_list bytes pool count (i + 1) ix' with
      | .error e => .error e
      | .ok (xs, ix'') => .ok (x :: xs, ix'')

/-- attributes.rs lines 789-796: `read_nestmembers_data`. -/
def read_nestmembers_data (bytes : List Nat) (ix : Nat)
    (pool : List ConstantPoolEntry) : Except ParseError (List String × Nat) :=
  match read_u2 bytes ix with
  | .error e => .error e
  | .ok (count, ix') => read_nestmembers_list bytes pool count 0 ix'

/-- The exception-table loop of `read_code_data` (lines 331-342). -/
def read_exception_table (bytes : List Nat) (pool : List ConstantPoolEntry) :
    Nat → Nat → Nat → Except ParseError (List ExceptionTableEntry × Nat)
  | 0, _, ix => .ok ([], ix)
  | count + 1, i, ix =>
    match read_u2 bytes ix with
    | .error e => .error e
    | .ok (start_pc, ix₁) =>
      match read_u2 bytes ix₁ with
      | .error e => .error e
      | .ok (end_pc, ix₂) =>
        match read_u2 bytes ix₂ with
        | .error e => .error e
        | .ok (handler_pc, ix₃) =>
          match wrapErr ("catch type of exception table entry " ++ toString i)
              (read_cp_classinfo_opt bytes ix₃ pool) with
          | .error e => .error e
          | .ok (catch_type, ix₄) =>
            match read_exception_table bytes pool count (i + 1) ix₄ with
            | .error e => .error e
            | .ok (xs, ix₅) => .ok (⟨start_pc, end_pc, handler_pc, catch_type⟩ :: xs, ix₅)

mutual

/-- attributes.rs lines 320-357: `read_code_data` — header, raw code slice
(bounds-checked), exception table, nested attributes, then the optional
bytecode decode gated by `opts.parse_bytecode`.  `bc` is the `ByteCode::from`
decoder (bytecode.rs, outside src/) and `cesu` the modified-UTF-8 decoder,
both passed through untouched; `fuel` bounds the Code/Record attribute
nesting depth. -/
def read_code_data (bc : BcDecoder) (cesu : Cesu8Decoder) (fuel : Nat) (bytes : List Nat)
    (ix : Nat) (pool : List ConstantPoolEntry) (opts : ParseOptions) :
    Except ParseError (CodeData × Nat) :=
  match fuel with
  | 0 => .error ["recursion limit reached"]
  | fuel + 1 =>
    match read_u2 bytes ix with
    | .error e => .error e
    | .ok (max_stack, ix₁) =>
      match read_u2 bytes ix₁ with
      | .error e => .error e
      | .ok (max_locals, ix₂) =>
        match read_u4 bytes ix₂ with
        | .error e => .error e
        | .ok (code_length, ix₃) =>
          if bytes.length < ix₃ + code_length then
            .error ["Unexpected end of stream reading code attribute at index " ++ toString ix₃]
          else
            let code := (bytes.drop ix₃).take code_length
            match read_u2 bytes (ix₃ + code_length) with
            | .error e => .error e
            | .ok (exception_table_count, ix₅) =>
              match read_exception_table bytes pool exception_table_count 0 ix₅ with
              | .error e => .error e
              | .ok (exception_table, ix₆) =>
                match wrapErr "code attribute"
                    (read_attributes bc cesu fuel bytes ix₆ pool opts) with
                | .error e => .error e
                | .ok (code_attributes, ix₇) =>
                  match (if opts.parse_bytecode then
                           (wrapErr "bytecode" (bc code pool)).map some
                         else .ok none) with
                  | .error e => .error e
                  | .ok bytecode =>
                    .ok (.mk max_stack max_locals code bytecode exception_table
                           code_attributes, ix₇)

termination_by structural fuel

/-- attributes.rs lines 801-816: the per-component body of
`read_record_data` — validated name and descriptor, then nested
attributes. -/
def read_record_component (bc : BcDecoder) (cesu : Cesu8Decoder) (fuel : Nat)
    (bytes : List Nat) (ix : Nat) (pool : List ConstantPoolEntry) (opts : ParseOptions)
    (i : Nat) : Except ParseError (RecordComponentEntry × Nat) :=
  match fuel with
  | 0 => .error ["recursion limit reached"]
  | fuel + 1 =>
    match wrapErr ("name of entry " ++ toString i) (read_cp_utf8 bytes ix pool) with
    | .error e => .error e
    | .ok (name, ix₁) =>
      if ¬ is_unqualified_name name false false then
        .error ["Invalid unqualified name for entry " ++ toString i]
      else
        match wrapErr ("descriptor of entry " ++ toString i)
            (read_cp_utf8 bytes ix₁ pool) with
        | .error e => .error e
        | .ok (descriptor, ix₂) =>
          if ¬ is_field_descriptor descriptor then
            .error ["Invalid descriptor for entry " ++ toString i]
          else
            match wrapErr ("entry " ++ toString i)
                (read_attributes bc cesu fuel bytes ix₂ pool opts) with
            | .error e => .error e
            | .ok (attributes, ix₃) => .ok (.mk name descriptor attributes, ix₃)

termination_by structural fuel

/-- The component loop of `read_record_data` (lines 801-816). -/
def read_record_components (bc : BcDecoder) (cesu : Cesu8Decoder) (fuel : Nat)
    (bytes : List Nat) (ix : Nat) (pool : List ConstantPoolEntry) (opts : ParseOptions)
    (count i : Nat) : Except ParseError (List RecordComponentEntry × Nat) :=
  match fuel with
  | 0 => .error ["recursion limit reached"]
  | fuel + 1 =>
    match count with
    | 0 => .ok ([], ix)
    | count + 1 =>
      match read_record_component bc cesu fuel bytes ix pool opts i with
      | .error e => .error e
      | .ok (x, ix') =>
        match read_record_components bc cesu fuel bytes ix' pool opts count (i + 1) with
        | .error e => .error e
        | .ok (xs, ix'') => .ok (x :: xs, ix'')

termination_by structural fuel

/-- attributes.rs lines 798-818: `read_record_data`. -/
def read_record_data (bc : BcDecoder) (cesu : Cesu8Decoder) (fuel : Nat)
    (bytes : List Nat) (ix : Nat) (pool : List ConstantPoolEntry) (opts : ParseOptions) :
    Except ParseError (List RecordComponentEntry × Nat) :=
  match fuel with
  | 0 => .error ["recursion limit reached"]
  | fuel + 1 =>
    match read_u2 bytes ix with
    | .error e => .error e
    | .ok (count, ix') => read_record_components bc cesu fuel bytes ix' pool opts count 0

termination_by structural fuel

/-- attributes.rs lines 830-958: the name dispatch of `read_attributes` —
decode one attribute's payload given its resolved `name` and declared
`length`, with the cursor at the start of the payload; `i` is the attribute
counter used in error contexts. -/
def read_attribute_data (bc : BcDecoder) (cesu : Cesu8Decoder) (fuel : Nat)
    (bytes : List Nat) (ix : Nat) (pool : List ConstantPoolEntry) (opts : ParseOptions)
    (i : Nat) (name : String) (length : Nat) : Except ParseError (AttributeData × Nat) :=
  match fuel with
  | 0 => .error ["recursion limit reached"]
  | fuel + 1 =>
    if name = "ConstantValue" then
      match wrapErr ("ConstantValue attribute " ++ toString i) (ensure_length length 2) with
      | .error e => .error e
      | .ok _ =>
        match wrapErr ("value field of ConstantValue attribute " ++ toString i)
            (read_cp_literalconstant bytes ix pool) with
        | .error e => .error e
        | .ok (v, ix') => .ok (.ConstantValue v, ix')
    else if name = "Code" then
      match wrapErr ("Code attribute " ++ toString i)
          (read_code_data bc cesu fuel bytes ix pool opts) with
      | .error e => .error e
      | .ok (cd, ix') => .ok (.Code cd, ix')
    else if name = "StackMapTable" then
      match wrapErr ("StackMapTable attribute " ++ toString i)
          (read_stackmaptable_data bytes ix pool) with
      | .error e => .error e
      | .ok (frames, ix') => .ok (.StackMapTable frames, ix')
    else if name = "Exceptions" then
      match wrapErr ("Exceptions attribute " ++ toString i)
          (read_exceptions_data bytes ix pool) with
      | .error e => .error e
      | .ok (xs, ix') => .ok (.Exceptions xs, ix')
    else if name = "InnerClasses" then
      match wrapErr ("InnerClasses attribute " ++ toString i)
          (read_innerclasses_data bytes ix pool) with
      | .error e => .error e
      | .ok (xs, ix') => .ok (.InnerClasses xs, ix')
    else if name = "EnclosingMethod" then
      match wrapErr ("EnclosingMethod attribute " ++ toString i) (ensure_length length 4) with
      | .error e => .error e
      | .ok _ =>
        match wrapErr ("class info of EnclosingMethod attribute " ++ toString i)
            (read_cp_classinfo bytes ix pool) with
        | .error e => .error e
        | .ok (class_name, ix₁) =>
          match wrapErr ("method info of EnclosingMethod attribute " ++ toString i)
              (read_cp_nameandtype_opt bytes ix₁ pool) with
          | .error e => .error e
          | .ok (method, ix₂) => .ok (.EnclosingMethod class_name method, ix₂)
    else if name = "Synthetic" then
      match wrapErr ("Synthetic attribute " ++ toString i) (ensure_length length 0) with
      | .error e => .error e
      | .ok _ => .ok (.Synthetic, ix)
    else if name = "Signature" then
      match wrapErr ("Signature attribute " ++ toString i) (ensure_length length 2) with
      | .error e => .error e
      | .ok _ =>
        match wrapErr ("signature field of Signature attribute " ++ toString i)
            (read_cp_utf8 bytes ix pool) with
        | .error e => .error e
        | .ok (s, ix') => .ok (.Signature s, ix')
    else if name = "SourceFile" then
      match wrapErr ("SourceFile attribute " ++ toString i) (ensure_length length 2) with
      | .error e => .error e
      | .ok _ =>
        match wrapErr ("signature field of SourceFile attribute " ++ toString i)
            (read_cp_utf8 bytes ix pool) with
        | .error e => .error e
        | .ok (s, ix') => .ok (.SourceFile s, ix')
    else if name = "SourceDebugExtension" then
      match cesu ((bytes.drop ix).take length) with
      | some s => .ok (.SourceDebugExtension s, ix + length)
      | none =>
        .error ["modified utf8 data of SourceDebugExtension attribute " ++ toString i,
                "invalid modified utf8"]
    else if name = "LineNumberTable" then
      match wrapErr ("LineNumberTable attribute " ++ toString i)
          (read_linenumber_data bytes ix) with
      | .error e => .error e
      | .ok (xs, ix') => .ok (.LineNumberTable xs, ix')
    else if name = "LocalVariableTable" then
      match wrapErr ("LocalVariableTable attribute " ++ toString i)
          (read_localvariable_data bytes ix pool) with
      | .error e => .error e
      | .ok (xs, ix') => .ok (.LocalVariableTable xs, ix')
    else if name = "LocalVariableTypeTable" then
      match wrapErr ("LocalVariableTypeTable attribute " ++ toString i)
          (read_localvariabletype_data bytes ix pool) with
      | .error e => .error e
      | .ok (xs, ix') => .ok (.LocalVariableTypeTable xs, ix')
    else if name = "Deprecated" then
      match wrapErr ("Deprecated attribute " ++ toString i) (ensure_length length 0) with
      | .error e => .error e
      | .ok _ => .ok (.Deprecated, ix)
    else if name = "RuntimeVisibleAnnotations" then
      match wrapErr ("RuntimeVisibleAnnotations attribute " ++ toString i)
          (read_annot_data fuel bytes ix pool) with
      | .error e => .error e
      | .ok (xs, ix') => .ok (.RuntimeVisibleAnnotations xs, ix')
    else if name = "RuntimeInvisibleAnnotations" then
      match wrapErr ("RuntimeInvisibleAnnotations attribute " ++ toString i)
          (read_annot_data fuel bytes ix pool) with
      | .error e => .error e
      | .ok (xs, ix') => .ok (.RuntimeInvisibleAnnotations xs, ix')
    else if name = "RuntimeVisibleParameterAnnotations" then
      match wrapErr ("RuntimeVisibleParameterAnnotations attribute " ++ toString i)
          (read_parameter_annot_data fuel bytes ix pool) with
      | .error e => .error e
      | .ok (xs, ix') => .ok (.RuntimeVisibleParameterAnnotations xs, ix')
    else if name = "RuntimeInvisibleParameterAnnotations" then
      match wrapErr ("RuntimeInvisibleParameterAnnotations attribute " ++ toString i)
          (read_parameter_annot_data fuel bytes ix pool) with
      | .error e => .error e
      | .ok (xs, ix') => .ok (.RuntimeInvisibleParameterAnnotations xs, ix')
    else if name = "RuntimeVisibleTypeAnnotations" then
      match wrapErr ("RuntimeVisibleTypeAnnotations attribute " ++ toString i)
          (read_type_annot_data fuel bytes ix pool) with
      | .error e => .error e
      | .ok (xs, ix') => .ok (.RuntimeVisibleTypeAnnotations xs, ix')
    else if name = "RuntimeInvisibleTypeAnnotations" then
      match wrapErr ("RuntimeInvisibleTypeAnnotations attribute " ++ toString i)
          (read_type_annot_data fuel bytes ix pool) with
      | .error e => .error e
      | .ok (xs, ix') => .ok (.RuntimeInvisibleTypeAnnotations xs, ix')
    else if name = "AnnotationDefault" then
      match wrapErr ("AnnotationDefault attribute " ++ toString i)
          (read_annot_element_value fuel bytes ix pool) with
      | .error e => .error e
      | .ok (v, ix') => .ok (.AnnotationDefault v, ix')
    else if name = "BootstrapMethods" then
      match wrapErr ("BootstrapMethods attribute " ++ toString i)
          (read_bootstrapmethods_data bytes ix pool) with
      | .error e => .error e
      | .ok (xs, ix') => .ok (.BootstrapMethods xs, ix')
    else if name = "MethodParameters" then
      match wrapErr ("MethodParameters attribute " ++ toString i)
          (read_methodparameters_data bytes ix pool) with
      | .error e => .error e
      | .ok (xs, ix') => .ok (.MethodParameters xs, ix')
    else if name = "Module" then
      match wrapErr ("Module attribute " ++ toString i)
          (read_module_data bytes ix pool) with
      | .error e => .error e
      | .ok (m, ix') => .ok (.Module m, ix')
    else if name = "ModulePackages" then
      match wrapErr ("ModulePackages attribute " ++ toString i)
          (read_modulepackages_data bytes ix pool) with
      | .error e => .error e
      | .ok (xs, ix') => .ok (.ModulePackages xs, ix')
    else if name = "ModuleMainClass" then
      match wrapErr ("ModuleMainClass attribute " ++ toString i) (ensure_length length 2) with
      | .error e => .error e
      | .ok _ =>
        match wrapErr ("ModuleMainClass attribute " ++ toString i)
            (read_cp_classinfo bytes ix pool) with
        | .error e => .error e
        | .ok (s, ix') => .ok (.ModuleMainClass s, ix')
    else if name = "NestHost" then
      match wrapErr ("NestHost attribute " ++ toString i) (ensure_length length 2) with
      | .error e => .error e
      | .ok _ =>
        match wrapErr ("NestHost attribute " ++ toString i)
            (read_cp_classinfo bytes ix pool) with
        | .error e => .error e
        | .ok (s, ix') => .ok (.NestHost s, ix')
    else if name = "NestMembers" then
      match wrapErr ("NestMembers attribute " ++ toString i)
          (read_nestmembers_data bytes ix pool) with
      | .error e => .error e
      | .ok (xs, ix') => .ok (.NestMembers xs, ix')
    else if name = "Record" then
      match wrapErr ("Record attribute " ++ toString i)
          (read_record_data bc cesu fuel bytes ix pool opts) with
      | .error e => .error e
      | .ok (xs, ix') => .ok (.Record xs, ix')
    else
      .ok (.Other ((bytes.drop ix).take length), ix + length)

termination_by structural fuel

/-- attributes.rs lines 823-965: the per-attribute body of
`read_attributes` — name, u32 length, end-of-buffer guard against
`expected_end`, dispatch, then the exact-length check. -/
def read_attribute_at (bc : BcDecoder) (cesu : Cesu8Decoder) (fuel : Nat)
    (bytes : List Nat) (ix : Nat) (pool : List ConstantPoolEntry) (opts : ParseOptions)
    (i : Nat) : Except ParseError (AttributeInfo × Nat) :=
  match fuel with
  | 0 => .error ["recursion limit reached"]
  | fuel + 1 =>
    match wrapErr ("name field of attribute " ++ toString i)
        (read_cp_utf8 bytes ix pool) with
    | .error e => .error e
    | .ok (name, ix₁) =>
      match read_u4 bytes ix₁ with
      | .error e => .error e
      | .ok (length, ix₂) =>
        if bytes.length < ix₂ + length then
          .error ["Unexpected end of stream reading attributes at index " ++ toString ix₂]
        else
          match read_attribute_data bc cesu fuel bytes ix₂ pool opts i name length with
          | .error e => .error e
          | .ok (data, ix₃) =>
            if ix₂ + length ≠ ix₃ then
              .error ["Length mismatch when reading attribute " ++ toString i]
            else .ok (.mk name data, ix₃)

termination_by structural fuel

/-- The attribute loop of `read_attributes` (lines 823-966). -/
def read_attributes_list (bc : BcDecoder) (cesu : Cesu8Decoder) (fuel : Nat)
    (bytes : List Nat) (ix : Nat) (pool : List ConstantPoolEntry) (opts : ParseOptions)
    (count i : Nat) : Except ParseError (List AttributeInfo × Nat) :=
  match fuel with
  | 0 => .error ["recursion limit reached"]
  | fuel + 1 =>
    match count with
    | 0 => .ok ([], ix)
    | count + 1 =>
      match read_attribute_at bc cesu fuel bytes ix pool opts i with
      | .error e => .error e
      | .ok (x, ix') =>
        match read_attributes_list bc cesu fuel bytes ix' pool opts count (i + 1) with
        | .error e => .error e
        | .ok (xs, ix'') => .ok (x :: xs, ix'')

termination_by structural fuel

/-- attributes.rs lines 820-968: `read_attributes` — a u16 count followed by
that many attributes. -/
def read_attributes (bc : BcDecoder) (cesu : Cesu8Decoder) (fuel : Nat)
    (bytes : List Nat) (ix : Nat) (pool : List ConstantPoolEntry) (opts : ParseOptions) :
    Except ParseError (List AttributeInfo × Nat) :=
  match fuel with
  | 0 => .error ["recursion limit reached"]
  | fuel + 1 =>
    match read_u2 bytes ix with
    | .error e => .error e
    | .ok (count, ix') => read_attributes_list bc cesu fuel bytes ix' pool opts count 0

termination_by structural fuel

end

/-- A trivial concrete bytecode decoder used to instantiate theorems whose
statements quantify over the decoder. -/
def bc0 : BcDecoder := fun _ _ => .error ["no bytecode decoder"]

/-- A concrete bytecode decoder that accepts every code array unchanged; used
to instantiate theorems at `parse_bytecode = true`. -/
def bcId : BcDecoder := fun code _ => .ok code

/-- A trivial concrete modified-UTF-8 decoder used to instantiate theorems
whose statements quantify over the decoder. -/
def cesu0 : Cesu8Decoder := fun _ => none

/-- The attribute names recognized by the dispatch of `read_attributes`
(lines 830-953); any other name falls to the `Other` arm. -/
def recognized_attributes : List String :=
  ["ConstantValue", "Code", "StackMapTable", "Exceptions", "InnerClasses",
   "EnclosingMethod", "Synthetic", "Signature", "SourceFile",
   "SourceDebugExtension", "LineNumberTable", "LocalVariableTable",
   "LocalVariableTypeTable", "Deprecated", "RuntimeVisibleAnnotations",
   "RuntimeInvisibleAnnotations", "RuntimeVisibleParameterAnnotations",
   "RuntimeInvisibleParameterAnnotations", "RuntimeVisibleTypeAnnotations",
   "RuntimeInvisibleTypeAnnotations", "AnnotationDefault", "BootstrapMethods",
   "MethodParameters", "Module", "ModulePackages", "ModuleMainClass",
   "NestHost", "NestMembers", "Record"]

/-! ### Helper lemmas -/

theorem ite_else_of {c : Prop} [Decidable c] {α : Type} {a b : α} (h : ¬c) :
    (if c then a else b) = b := if_neg h

theorem wrapErr_ok {α : Type} (ctx : String) (a : α) :
    wrapErr ctx (.ok a : Except ParseError α) = .ok a := rfl

theorem wrapErr_error {α : Type} (ctx : String) (e : ParseError) :
    wrapErr ctx (.error e : Except ParseError α) = .error (ctx :: e) := rfl

theorem read_verification_list_length (bytes : List Nat) (pool : List ConstantPoolEntry)
    (ctx : Nat → String) :
    ∀ count j ix l ix', read_verification_list bytes pool ctx count j ix = .ok (l, ix') →
      l.length = count := by
  intro count
  induction count with
  | zero =>
    intro j ix l ix' h
    simp only [read_verification_list] at h
    cases h
    rfl
  | succ n ih =>
    intro j ix l ix' h
    simp only [read_verification_list] at h
    split at h
    · cases h
    · rename_i v ix₂ hv
      split at h
      · cases h
      · rename_i vs ix₃ hrest
        cases h
        simp [ih _ _ _ _ hrest]

/-! ### C1 -/

/-- C1: in the per-attribute body of `read_attributes`, after reading the
name and the u32 length the decoder computes `expected_end = ix + length`;
on success the cursor ends exactly at `expected_end` (which never exceeds
the buffer length), for every attribute, known or unknown.  Failure of
either check is fatal, so this together with determinism captures both
fatal paths of lines 827-829 and 959-961. -/
theorem read_attribute_at_ends_at_expected_end
    (bc : BcDecoder) (cesu : Cesu8Decoder) (fuel : Nat) (bytes : List Nat) (ix : Nat)
    (pool : List ConstantPoolEntry) (opts : ParseOptions) (i : Nat)
    (name : String) (ix₁ length ix₂ : Nat) (info : AttributeInfo) (ix₃ : Nat)
    (hname : read_cp_utf8 bytes ix pool = .ok (name, ix₁))
    (hlen : read_u4 bytes ix₁ = .ok (length, ix₂))
    (hok : read_attribute_at bc cesu fuel bytes ix pool opts i = .ok (info, ix₃)) :
    ix₂ + length ≤ bytes.length ∧ ix₃ = ix₂ + length := by
  cases fuel with
  | zero => simp [read_attribute_at] at hok
  | succ f =>
    simp only [read_attribute_at] at hok
    rw [hname, wrapErr_ok] at hok
    dsimp only at hok
    rw [hlen] at hok
    dsimp only at hok
    split at hok
    · cases hok
    · rename_i hle
      split at hok
      · cases hok
      · rename_i data ix₃' hdata
        split at hok
        · cases hok
        · rename_i hend
          cases hok
          omega

/-- Witness for C1: a concrete unknown attribute (`name_index` 1 →
`"Foo"`, declared length 3, payload 3 bytes): the iteration succeeds and
the cursor lands exactly at `expected_end = 6 + 3 = 9`, within the 9-byte
buffer. -/
theorem read_attribute_at_ends_at_expected_end_witness :
    6 + 3 ≤ ([0, 1, 0, 0, 0, 3, 0xAA, 0xBB, 0xCC] : List Nat).length ∧ 9 = 6 + 3 :=
  read_attribute_at_ends_at_expected_end bc0 cesu0 2
    [0, 1, 0, 0, 0, 3, 0xAA, 0xBB, 0xCC] 0 [.Utf8 "Foo"] ⟨false⟩ 0
    "Foo" 2 3 6 (.mk "Foo" (.Other [0xAA, 0xBB, 0xCC])) 9 rfl rfl rfl

/-! ### C2 -/

/-- C2: the one-byte stack-map frame tag is decoded by buckets: 0..63 is
`Same` with `offset_delta = tag`; 64..127 is `SameLocals1StackItem` with
`offset_delta = tag - 64` and one verification type; 128..246 is fatal;
247 is `SameLocals1StackItem` with an explicit u16 delta; 248..250 is
`Chop` with `chop_count = 251 - tag`; 251 is `Same` with an explicit u16
delta; 252..254 is `Append` with `tag - 251` locals; 255 is `FullFrame`
with explicit u16-counted locals and stack lists. -/
theorem read_stackmap_entry_tag_dispatch (bytes : List Nat) (ix : Nat)
    (pool : List ConstantPoolEntry) (i tag : Nat)
    (hget : bytes.get? ix = some tag) (htag : tag < 256) :
    (tag ≤ 63 → read_stackmap_entry bytes ix pool i = .ok (.Same tag, ix + 1)) ∧
    (64 ≤ tag → tag ≤ 127 → ∀ vt ix₂,
      read_stackmaptable_verification bytes (ix + 1) pool = .ok (vt, ix₂) →
      read_stackmap_entry bytes ix pool i = .ok (.SameLocals1StackItem (tag - 64) vt, ix₂)) ∧
    (128 ≤ tag → tag ≤ 246 → isError (read_stackmap_entry bytes ix pool i) = true) ∧
    (tag = 247 → ∀ d ix₂ vt ix₃, read_u2 bytes (ix + 1) = .ok (d, ix₂) →
      read_stackmaptable_verification bytes ix₂ pool = .ok (vt, ix₃) →
      read_stackmap_entry bytes ix pool i = .ok (.SameLocals1StackItem d vt, ix₃)) ∧
    (248 ≤ tag → tag ≤ 250 → ∀ d ix₂, read_u2 bytes (ix + 1) = .ok (d, ix₂) →
      read_stackmap_entry bytes ix pool i = .ok (.Chop d (251 - tag), ix₂)) ∧
    (tag = 251 → ∀ d ix₂, read_u2 bytes (ix + 1) = .ok (d, ix₂) →
      read_stackmap_entry bytes ix pool i = .ok (.Same d, ix₂)) ∧
    (252 ≤ tag → tag ≤ 254 → ∀ d ix₂ locals ix₃,
      read_u2 bytes (ix + 1) = .ok (d, ix₂) →
      read_verification_list bytes pool
        (fun j => "local entry " ++ toString j ++ " of append stack map entry " ++ toString i)
        (tag - 251) 0 ix₂ = .ok (locals, ix₃) →
      read_stackmap_entry bytes ix pool i = .ok (.Append d locals, ix₃) ∧
      locals.length = tag - 251) ∧
    (tag = 255 → ∀ d ix₂ nloc ix₃ locals ix₄ nstk ix₅ stack ix₆,
      read_u2 bytes (ix + 1) = .ok (d, ix₂) →
      read_u2 bytes ix₂ = .ok (nloc, ix₃) →
      read_verification_list bytes pool
        (fun j => "local entry " ++ toString j ++ " of full-frame stack map entry " ++ toString i)
        nloc 0 ix₃ = .ok (locals, ix₄) →
      read_u2 bytes ix₄ = .ok (nstk, ix₅) →
      read_verification_list bytes pool
        (fun j => "stack entry " ++ toString j ++ " of full-frame stack map entry " ++ toString i)
        nstk 0 ix₅ = .ok (stack, ix₆) →
      read_stackmap_entry bytes ix pool i = .ok (.FullFrame d locals stack, ix₆) ∧
      locals.length = nloc ∧ stack.length = nstk) := by
  refine ⟨?_, ?_, ?_, ?_, ?_, ?_, ?_, ?_⟩
  · intro h1
    simp only [read_stackmap_entry, read_u1, hget, Nat.mod_eq_of_lt htag]
    rw [if_pos h1]
  · intro h64 h127 vt ix₂ hv
    simp only [read_stackmap_entry, read_u1, hget, Nat.mod_eq_of_lt htag]
    rw [ite_else_of (by omega), if_pos (by omega), hv, wrapErr_ok]
  · intro h128 h246
    simp only [read_stackmap_entry, read_u1, hget, Nat.mod_eq_of_lt htag]
    rw [ite_else_of (by omega), ite_else_of (by omega), if_pos (by omega)]
    rfl
  · intro h247 d ix₂ vt ix₃ hu hv
    simp only [read_stackmap_entry, read_u1, hget, Nat.mod_eq_of_lt htag]
    rw [ite_else_of (by omega), ite_else_of (by omega), ite_else_of (by omega), if_pos h247, hu]
    dsimp only
    rw [hv, wrapErr_ok]
  · intro h248 h250 d ix₂ hu
    simp only [read_stackmap_entry, read_u1, hget, Nat.mod_eq_of_lt htag]
    rw [ite_else_of (by omega), ite_else_of (by omega), ite_else_of (by omega), ite_else_of (by omega),
        if_pos (by omega), hu]
  · intro h251 d ix₂ hu
    simp only [read_stackmap_entry, read_u1, hget, Nat.mod_eq_of_lt htag]
    rw [ite_else_of (by omega), ite_else_of (by omega), ite_else_of (by omega), ite_else_of (by omega),
        ite_else_of (by omega), if_pos h251, hu]
  · intro h252 h254 d ix₂ locals ix₃ hu hlist
    constructor
    · simp only [read_stackmap_entry, read_u1, hget, Nat.mod_eq_of_lt htag]
      rw [ite_else_of (by omega), ite_else_of (by omega), ite_else_of (by omega), ite_else_of (by omega),
          ite_else_of (by omega), ite_else_of (by omega), if_pos (by omega), hu]
      dsimp only
      rw [hlist]
    · exact read_verification_list_length _ _ _ _ _ _ _ _ hlist
  · intro h255 d ix₂ nloc ix₃ locals ix₄ nstk ix₅ stack ix₆ hu1 hu2 hl1 hu3 hl2
    refine ⟨?_, read_verification_list_length _ _ _ _ _ _ _ _ hl1,
            read_verification_list_length _ _ _ _ _ _ _ _ hl2⟩
    simp only [read_stackmap_entry, read_u1, hget, Nat.mod_eq_of_lt htag]
    rw [ite_else_of (by omega), ite_else_of (by omega), ite_else_of (by omega), ite_else_of (by omega),
        ite_else_of (by omega), ite_else_of (by omega), ite_else_of (by omega), hu1]
    dsimp only
    rw [hu2]
    dsimp only
    rw [hl1]
    dsimp only
    rw [hu3]
    dsimp only
    rw [hl2]

/-- Witness for C2: seven concrete frames, one per bucket of the spec's
scenario 4 (tags 0, 64, 130, 247, 248, 251, 252, 255). -/
theorem read_stackmap_entry_tag_dispatch_witness :
    read_stackmap_entry [0] 0 [] 0 = .ok (.Same 0, 1) ∧
    read_stackmap_entry [64, 1] 0 [] 0 = .ok (.SameLocals1StackItem 0 .Integer, 2) ∧
    isError (read_stackmap_entry [130] 0 [] 0) = true ∧
    read_stackmap_entry [247, 0, 5, 1] 0 [] 0 = .ok (.SameLocals1StackItem 5 .Integer, 4) ∧
    read_stackmap_entry [248, 0, 7] 0 [] 0 = .ok (.Chop 7 3, 3) ∧
    read_stackmap_entry [251, 0, 9] 0 [] 0 = .ok (.Same 9, 3) ∧
    (read_stackmap_entry [252, 0, 2, 1] 0 [] 0 = .ok (.Append 2 [.Integer], 4) ∧
      ([VerificationType.Integer]).length = 252 - 251) ∧
    (read_stackmap_entry [255, 0, 1, 0, 1, 1, 0, 1, 2] 0 [] 0 =
        .ok (.FullFrame 1 [.Integer] [.Float], 9) ∧
      ([VerificationType.Integer]).length = 1 ∧ ([VerificationType.Float]).length = 1) :=
  ⟨(read_stackmap_entry_tag_dispatch [0] 0 [] 0 0 rfl (by omega)).1 (by omega),
   (read_stackmap_entry_tag_dispatch [64, 1] 0 [] 0 64 rfl (by omega)).2.1
     (by omega) (by omega) .Integer 2 rfl,
   (read_stackmap_entry_tag_dispatch [130] 0 [] 0 130 rfl (by omega)).2.2.1
     (by omega) (by omega),
   (read_stackmap_entry_tag_dispatch [247, 0, 5, 1] 0 [] 0 247 rfl (by omega)).2.2.2.1
     rfl 5 3 .Integer 4 rfl rfl,
   (read_stackmap_entry_tag_dispatch [248, 0, 7] 0 [] 0 248 rfl (by omega)).2.2.2.2.1
     (by omega) (by omega) 7 3 rfl,
   (read_stackmap_entry_tag_dispatch [251, 0, 9] 0 [] 0 251 rfl (by omega)).2.2.2.2.2.1
     rfl 9 3 rfl,
   (read_stackmap_entry_tag_dispatch [252, 0, 2, 1] 0 [] 0 252 rfl (by omega)).2.2.2.2.2.2.1
     (by omega) (by omega) 2 3 [.Integer] 4 rfl rfl,
   (read_stackmap_entry_tag_dispatch [255, 0, 1, 0, 1, 1, 0, 1, 2] 0 [] 0 255 rfl
       (by omega)).2.2.2.2.2.2.2
     rfl 1 3 1 5 [.Integer] 6 1 8 [.Float] 9 rfl rfl rfl rfl rfl⟩

/-! ### C10 -/

/-- C10: `read_stackmaptable_verification` maps the verification-type tag
byte as 0 Top, 1 Integer, 2 Float, 3 Double, 4 Long, 5 Null,
6 UninitializedThis, 7 Object with the pool-resolved class name,
8 Uninitialized with a u16 code offset; every tag greater than 8 is
fatal. -/
theorem read_stackmaptable_verification_dispatch (bytes : List Nat) (ix : Nat)
    (pool : List ConstantPoolEntry) (tag : Nat)
    (hget : bytes.get? ix = some tag) (htag : tag < 256) :
    (tag = 0 → read_stackmaptable_verification bytes ix pool = .ok (.Top, ix + 1)) ∧
    (tag = 1 → read_stackmaptable_verification bytes ix pool = .ok (.Integer, ix + 1)) ∧
    (tag = 2 → read_stackmaptable_verification bytes ix pool = .ok (.Float, ix + 1)) ∧
    (tag = 3 → read_stackmaptable_verification bytes ix pool = .ok (.Double, ix + 1)) ∧
    (tag = 4 → read_stackmaptable_verification bytes ix pool = .ok (.Long, ix + 1)) ∧
    (tag = 5 → read_stackmaptable_verification bytes ix pool = .ok (.Null, ix + 1)) ∧
    (tag = 6 → read_stackmaptable_verification bytes ix pool =
      .ok (.UninitializedThis, ix + 1)) ∧
    (tag = 7 → ∀ cn ix₂, read_cp_classinfo bytes (ix + 1) pool = .ok (cn, ix₂) →
      read_stackmaptable_verification bytes ix pool = .ok (.Object cn, ix₂)) ∧
    (tag = 8 → ∀ off ix₂, read_u2 bytes (ix + 1) = .ok (off, ix₂) →
      read_stackmaptable_verification bytes ix pool = .ok (.Uninitialized off, ix₂)) ∧
    (9 ≤ tag → isError (read_stackmaptable_verification bytes ix pool) = true) := by
  refine ⟨?_, ?_, ?_, ?_, ?_, ?_, ?_, ?_, ?_, ?_⟩
  · intro h
    simp only [read_stackmaptable_verification, read_u1, hget, Nat.mod_eq_of_lt htag]
    rw [if_pos h]
  · intro h
    simp only [read_stackmaptable_verification, read_u1, hget, Nat.mod_eq_of_lt htag]
    rw [ite_else_of (by omega), if_pos h]
  · intro h
    simp only [read_stackmaptable_verification, read_u1, hget, Nat.mod_eq_of_lt htag]
    rw [ite_else_of (by omega), ite_else_of (by omega), if_pos h]
  · intro h
    simp only [read_stackmaptable_verification, read_u1, hget, Nat.mod_eq_of_lt htag]
    rw [ite_else_of (by omega), ite_else_of (by omega), ite_else_of (by omega), if_pos h]
  · intro h
    simp only [read_stackmaptable_verification, read_u1, hget, Nat.mod_eq_of_lt htag]
    rw [ite_else_of (by omega), ite_else_of (by omega), ite_else_of (by omega), ite_else_of (by omega), if_pos h]
  · intro h
    simp only [read_stackmaptable_verification, read_u1, hget, Nat.mod_eq_of_lt htag]
    rw [ite_else_of (by omega), ite_else_of (by omega), ite_else_of (by omega), ite_else_of (by omega),
        ite_else_of (by omega), if_pos h]
  · intro h
    simp only [read_stackmaptable_verification, read_u1, hget, Nat.mod_eq_of_lt htag]
    rw [ite_else_of (by omega), ite_else_of (by omega), ite_else_of (by omega), ite_else_of (by omega),
        ite_else_of (by omega), ite_else_of (by omega), if_pos h]
  · intro h cn ix₂ hcn
    simp only [read_stackmaptable_verification, read_u1, hget, Nat.mod_eq_of_lt htag]
    rw [ite_else_of (by omega), ite_else_of (by omega), ite_else_of (by omega), ite_else_of (by omega),
        ite_else_of (by omega), ite_else_of (by omega), ite_else_of (by omega), if_pos h, hcn, wrapErr_ok]
  · intro h off ix₂ hoff
    simp only [read_stackmaptable_verification, read_u1, hget, Nat.mod_eq_of_lt htag]
    rw [ite_else_of (by omega), ite_else_of (by omega), ite_else_of (by omega), ite_else_of (by omega),
        ite_else_of (by omega), ite_else_of (by omega), ite_else_of (by omega), ite_else_of (by omega),
        if_pos h, hoff]
  · intro h
    simp only [read_stackmaptable_verification, read_u1, hget, Nat.mod_eq_of_lt htag]
    rw [ite_else_of (by omega), ite_else_of (by omega), ite_else_of (by omega), ite_else_of (by omega),
        ite_else_of (by omega), ite_else_of (by omega), ite_else_of (by omega), ite_else_of (by omega),
        ite_else_of (by omega)]
    rfl

/-- Witness for C10: all ten buckets exercised at concrete inputs (tag 7
resolves pool entry 1 to class `A`; tag 9 is fatal). -/
theorem read_stackmaptable_verification_dispatch_witness :
    read_stackmaptable_verification [0] 0 [] = .ok (.Top, 1) ∧
    read_stackmaptable_verification [1] 0 [] = .ok (.Integer, 1) ∧
    read_stackmaptable_verification [2] 0 [] = .ok (.Float, 1) ∧
    read_stackmaptable_verification [3] 0 [] = .ok (.Double, 1) ∧
    read_stackmaptable_verification [4] 0 [] = .ok (.Long, 1) ∧
    read_stackmaptable_verification [5] 0 [] = .ok (.Null, 1) ∧
    read_stackmaptable_verification [6] 0 [] = .ok (.UninitializedThis, 1) ∧
    read_stackmaptable_verification [7, 0, 1] 0 [.ClassInfo "A"] = .ok (.Object "A", 3) ∧
    read_stackmaptable_verification [8, 0, 3] 0 [] = .ok (.Uninitialized 3, 3) ∧
    isError (read_stackmaptable_verification [9] 0 []) = true :=
  ⟨(read_stackmaptable_verification_dispatch [0] 0 [] 0 rfl (by omega)).1 rfl,
   (read_stackmaptable_verification_dispatch [1] 0 [] 1 rfl (by omega)).2.1 rfl,
   (read_stackmaptable_verification_dispatch [2] 0 [] 2 rfl (by omega)).2.2.1 rfl,
   (read_stackmaptable_verification_dispatch [3] 0 [] 3 rfl (by omega)).2.2.2.1 rfl,
   (read_stackmaptable_verification_dispatch [4] 0 [] 4 rfl (by omega)).2.2.2.2.1 rfl,
   (read_stackmaptable_verification_dispatch [5] 0 [] 5 rfl (by omega)).2.2.2.2.2.1 rfl,
   (read_stackmaptable_verification_dispatch [6] 0 [] 6 rfl (by omega)).2.2.2.2.2.2.1 rfl,
   (read_stackmaptable_verification_dispatch [7, 0, 1] 0 [.ClassInfo "A"] 7 rfl
     (by omega)).2.2.2.2.2.2.2.1 rfl "A" 3 rfl,
   (read_stackmaptable_verification_dispatch [8, 0, 3] 0 [] 8 rfl
     (by omega)).2.2.2.2.2.2.2.2.1 rfl 3 3 rfl,
   (read_stackmaptable_verification_dispatch [9] 0 [] 9 rfl
     (by omega)).2.2.2.2.2.2.2.2.2 (by omega)⟩

/-! ### C3 -/

theorem read_localvariable_entry_valid (bytes : List Nat) (ix : Nat)
    (pool : List ConstantPoolEntry) (i : Nat) (e : LocalVariableEntry) (ix' : Nat)
    (h : read_localvariable_entry bytes ix pool i = .ok (e, ix')) :
    is_unqualified_name e.name false false = true ∧
    is_field_descriptor e.descriptor = true := by
  simp only [read_localvariable_entry] at h
  split at h
  · cases h
  · rename_i start_pc ix₁ h1
    split at h
    · cases h
    · rename_i len ix₂ h2
      split at h
      · cases h
      · rename_i nm ix₃ h3
        split at h
        · cases h
        · rename_i hname
          split at h
          · cases h
          · rename_i d ix₄ h4
            split at h
            · cases h
            · rename_i hdesc
              split at h
              · cases h
              · rename_i idx ix₅ h5
                cases h
                exact ⟨not_not.mp hname, not_not.mp hdesc⟩

theorem read_localvariable_list_valid (bytes : List Nat) (pool : List ConstantPoolEntry) :
    ∀ count i ix res ix',
      read_localvariable_list bytes pool count i ix = .ok (res, ix') →
      ∀ e ∈ res, is_unqualified_name e.name false false = true ∧
        is_field_descriptor e.descriptor = true := by
  intro count
  induction count with
  | zero =>
    intro i ix res ix' h
    simp only [read_localvariable_list] at h
    cases h
    intro e he
    simp at he
  | succ n ih =>
    intro i ix res ix' h
    simp only [read_localvariable_list] at h
    split at h
    · cases h
    · rename_i x ix₁ hx
      split at h
      · cases h
      · rename_i xs ix₂ hxs
        cases h
        intro e he
        rcases List.mem_cons.mp he with rfl | hmem
        · exact read_localvariable_entry_valid _ _ _ _ _ _ hx
        · exact ih _ _ _ _ hxs e hmem

theorem read_localvariabletype_entry_name_valid (bytes : List Nat) (ix : Nat)
    (pool : List ConstantPoolEntry) (i : Nat) (e : LocalVariableTypeEntry) (ix' : Nat)
    (h : read_localvariabletype_entry bytes ix pool i = .ok (e, ix')) :
    is_unqualified_name e.name false false = true := by
  simp only [read_localvariabletype_entry] at h
  split at h
  · cases h
  · rename_i start_pc ix₁ h1
    split at h
    · cases h
    · rename_i len ix₂ h2
      split at h
      · cases h
      · rename_i nm ix₃ h3
        split at h
        · cases h
        · rename_i hname
          split at h
          · cases h
          · rename_i s ix₄ h4
            split at h
            · cases h
            · rename_i idx ix₅ h5
              cases h
              exact not_not.mp hname

theorem read_localvariabletype_list_name_valid (bytes : List Nat)
    (pool : List ConstantPoolEntry) :
    ∀ count i ix res ix',
      read_localvariabletype_list bytes pool count i ix = .ok (res, ix') →
      ∀ e ∈ res, is_unqualified_name e.name false false = true := by
  intro count
  induction count with
  | zero =>
    intro i ix res ix' h
    simp only [read_localvariabletype_list] at h
    cases h
    intro e he
    simp at he
  | succ n ih =>
    intro i ix res ix' h
    simp only [read_localvariabletype_list] at h
    split at h
    · cases h
    · rename_i x ix₁ hx
      split at h
      · cases h
      · rename_i xs ix₂ hxs
        cases h
        intro e he
        rcases List.mem_cons.mp he with rfl | hmem
        · exact read_localvariabletype_entry_name_valid _ _ _ _ _ _ hx
        · exact ih _ _ _ _ hxs e hmem

theorem read_record_component_valid (bc : BcDecoder) (cesu : Cesu8Decoder) (fuel : Nat)
    (bytes : List Nat) (ix : Nat) (pool : List ConstantPoolEntry) (opts : ParseOptions)
    (i : Nat) (e : RecordComponentEntry) (ix' : Nat)
    (h : read_record_component bc cesu fuel bytes ix pool opts i = .ok (e, ix')) :
    is_unqualified_name e.name false false = true ∧
    is_field_descriptor e.descriptor = true := by
  cases fuel with
  | zero => simp [read_record_component] at h
  | succ f =>
    simp only [read_record_component] at h
    split at h
    · cases h
    · rename_i nm ix₁ h1
      split at h
      · cases h
      · rename_i hname
        split at h
        · cases h
        · rename_i d ix₂ h2
          split at h
          · cases h
          · rename_i hdesc
            split at h
            · cases h
            · rename_i attrs ix₃ h3
              cases h
              exact ⟨not_not.mp hname, not_not.mp hdesc⟩

theorem read_record_components_valid (bc : BcDecoder) (cesu : Cesu8Decoder)
    (bytes : List Nat) (pool : List ConstantPoolEntry) (opts : ParseOptions) :
    ∀ fuel count i ix res ix',
      read_record_components bc cesu fuel bytes ix pool opts count i = .ok (res, ix') →
      ∀ e ∈ res, is_unqualified_name e.name false false = true ∧
        is_field_descriptor e.descriptor = true := by
  intro fuel
  induction fuel with
  | zero =>
    intro count i ix res ix' h
    simp [read_record_components] at h
  | succ f ih =>
    intro count i ix res ix' h
    cases count with
    | zero =>
      simp only [read_record_components] at h
      cases h
      intro e he
      simp at he
    | succ c =>
      simp only [read_record_components] at h
      split at h
      · cases h
      · rename_i x ix₁ hx
        split at h
        · cases h
        · rename_i xs ix₂ hxs
          cases h
          intro e he
          rcases List.mem_cons.mp he with rfl | hmem
          · exact read_record_component_valid _ _ _ _ _ _ _ _ _ _ hx
          · exact ih _ _ _ _ _ hxs e hmem

/-- Counterexample for C3 as stated: a LocalVariableTypeTable whose entry
carries the string `"!"` in the descriptor position (its `signature` field)
parses successfully even though `is_field_descriptor "!"` is false — the
source validates only the entry name, not the signature. -/
theorem localvariabletype_signature_not_validated :
    read_localvariabletype_data [0, 1, 0, 0, 0, 0, 0, 1, 0, 2, 0, 0] 0
      [.Utf8 "x", .Utf8 "!"] = .ok ([⟨0, 0, "x", "!", 0⟩], 12) ∧
    is_field_descriptor "!" = false :=
  ⟨rfl, rfl⟩

/-- C3 (amended): every entry of a successfully parsed LocalVariableTable or
Record attribute has a name satisfying `is_unqualified_name` (with
`<init>`/`<clinit>` disallowed) and a descriptor satisfying
`is_field_descriptor`, and parsing fails whenever either predicate rejects;
for LocalVariableTypeTable entries only the name is validated — the
signature string is not checked against `is_field_descriptor`. -/
theorem localvariable_record_entries_validated (bc : BcDecoder) (cesu : Cesu8Decoder)
    (bytes : List Nat) (ix : Nat) (pool : List ConstantPoolEntry) :
    (∀ res ix', read_localvariable_data bytes ix pool = .ok (res, ix') →
      ∀ e ∈ res, is_unqualified_name e.name false false = true ∧
        is_field_descriptor e.descriptor = true) ∧
    (∀ fuel opts res ix', read_record_data bc cesu fuel bytes ix pool opts = .ok (res, ix') →
      ∀ e ∈ res, is_unqualified_name e.name false false = true ∧
        is_field_descriptor e.descriptor = true) ∧
    (∀ res ix', read_localvariabletype_data bytes ix pool = .ok (res, ix') →
      ∀ e ∈ res, is_unqualified_name e.name false false = true) := by
  refine ⟨?_, ?_, ?_⟩
  · intro res ix' h
    simp only [read_localvariable_data] at h
    split at h
    · cases h
    · rename_i count ix₁ hc
      exact read_localvariable_list_valid _ _ _ _ _ _ _ h
  · intro fuel opts res ix' h
    cases fuel with
    | zero => simp [read_record_data] at h
    | succ f =>
      simp only [read_record_data] at h
      split at h
      · cases h
      · rename_i count ix₁ hc
        exact read_record_components_valid _ _ _ _ _ _ _ _ _ _ _ h
  · intro res ix' h
    simp only [read_localvariabletype_data] at h
    split at h
    · cases h
    · rename_i count ix₁ hc
      exact read_localvariabletype_list_name_valid _ _ _ _ _ _ _ h

/-- Witness for the amended C3: a concrete one-entry LocalVariableTable
(name `"x"`, descriptor `"I"`) parses and its entry satisfies both
predicates. -/
theorem localvariable_record_entries_validated_witness :
    is_unqualified_name (⟨0, 0, "x", "I", 0⟩ : LocalVariableEntry).name false false = true ∧
    is_field_descriptor (⟨0, 0, "x", "I", 0⟩ : LocalVariableEntry).descriptor = true :=
  (localvariable_record_entries_validated bc0 cesu0
      [0, 1, 0, 0, 0, 0, 0, 1, 0, 2, 0, 0] 0 [.Utf8 "x", .Utf8 "I"]).1
    [⟨0, 0, "x", "I", 0⟩] 12 rfl ⟨0, 0, "x", "I", 0⟩ (by simp)

/-! ### C4 -/

/-- C4: access-flag strictness differs per set — InnerClasses entry flags
silently truncate undefined bits (the entry decodes for every raw flag word,
keeping `raw &&& innerclass_mask`), while MethodParameters entry flags and
every Module flag set (module, requires, exports, opens) are strict: a raw
word with any undefined bit makes the parse fail. -/
theorem access_flag_strictness (bytes : List Nat) (pool : List ConstantPoolEntry)
    (i : Nat) :
    (∀ ix ici ix₁ oci ix₂ inm ix₃ raw ix₄,
      read_cp_classinfo bytes ix pool = .ok (ici, ix₁) →
      read_cp_classinfo_opt bytes ix₁ pool = .ok (oci, ix₂) →
      read_cp_utf8_opt bytes ix₂ pool = .ok (inm, ix₃) →
      read_u2 bytes ix₃ = .ok (raw, ix₄) →
      read_innerclass_entry bytes ix pool i =
        .ok (⟨ici, oci, inm, raw &&& innerclass_mask⟩, ix₄)) ∧
    (∀ ix nm ix₁ raw ix₂,
      read_cp_utf8_opt bytes ix pool = .ok (nm, ix₁) →
      read_u2 bytes ix₁ = .ok (raw, ix₂) →
      raw &&& methodparameter_mask ≠ raw →
      isError (read_methodparameter_entry bytes ix pool i) = true) ∧
    (∀ ix nm ix₁ raw ix₂,
      read_cp_moduleinfo bytes ix pool = .ok (nm, ix₁) →
      read_u2 bytes ix₁ = .ok (raw, ix₂) →
      raw &&& module_mask ≠ raw →
      isError (read_module_data bytes ix pool) = true) ∧
    (∀ ix nm ix₁ raw ix₂,
      read_cp_moduleinfo bytes ix pool = .ok (nm, ix₁) →
      read_u2 bytes ix₁ = .ok (raw, ix₂) →
      raw &&& modulerequires_mask ≠ raw →
      isError (read_module_requires_entry bytes ix pool i) = true) ∧
    (∀ ix nm ix₁ raw ix₂,
      read_cp_packageinfo bytes ix pool = .ok (nm, ix₁) →
      read_u2 bytes ix₁ = .ok (raw, ix₂) →
      raw &&& moduleexports_mask ≠ raw →
      isError (read_module_exports_entry bytes ix pool i) = true) ∧
    (∀ ix nm ix₁ raw ix₂,
      read_cp_packageinfo bytes ix pool = .ok (nm, ix₁) →
      read_u2 bytes ix₁ = .ok (raw, ix₂) →
      raw &&& moduleopens_mask ≠ raw →
      isError (read_module_opens_entry bytes ix pool i) = true) := by
  refine ⟨?_, ?_, ?_, ?_, ?_, ?_⟩
  · intro ix ici ix₁ oci ix₂ inm ix₃ raw ix₄ h1 h2 h3 h4
    simp only [read_innerclass_entry]
    rw [h1, wrapErr_ok]
    dsimp only
    rw [h2, wrapErr_ok]
    dsimp only
    rw [h3, wrapErr_ok]
    dsimp only
    rw [h4]
    rfl
  · intro ix nm ix₁ raw ix₂ h1 h2 hraw
    simp only [read_methodparameter_entry]
    rw [h1, wrapErr_ok]
    dsimp only
    split
    · rfl
    · rw [h2]
      dsimp only
      simp only [from_bits]
      rw [if_neg hraw]
      rfl
  · intro ix nm ix₁ raw ix₂ h1 h2 hraw
    simp only [read_module_data]
    rw [h1, wrapErr_ok]
    dsimp only
    rw [h2]
    dsimp only
    simp only [from_bits]
    rw [if_neg hraw]
    rfl
  · intro ix nm ix₁ raw ix₂ h1 h2 hraw
    simp only [read_module_requires_entry]
    rw [h1, wrapErr_ok]
    dsimp only
    rw [h2]
    dsimp only
    simp only [from_bits]
    rw [if_neg hraw]
    rfl
  · intro ix nm ix₁ raw ix₂ h1 h2 hraw
    simp only [read_module_exports_entry]
    rw [h1, wrapErr_ok]
    dsimp only
    rw [h2]
    dsimp only
    simp only [from_bits]
    rw [if_neg hraw]
    rfl
  · intro ix nm ix₁ raw ix₂ h1 h2 hraw
    simp only [read_module_opens_entry]
    rw [h1, wrapErr_ok]
    dsimp only
    rw [h2]
    dsimp only
    simp only [from_bits]
    rw [if_neg hraw]
    rfl

/-- Witness for C4: an inner-class entry with raw flags 0xFFFF decodes with
the undefined bits silently dropped (0xFFFF &&& mask = 0x761F), while the
same kind of undefined bit (0x0020 for method parameters, 0x0001 for each
module set) makes the strict decoders fail. -/
theorem access_flag_strictness_witness :
    read_innerclass_entry [0, 1, 0, 0, 0, 0, 0xFF, 0xFF] 0 [.ClassInfo "A"] 0 =
      .ok (⟨"A", none, none, 0xFFFF &&& innerclass_mask⟩, 8) ∧
    isError (read_methodparameter_entry [0, 0, 0, 0x20] 0 [] 0) = true ∧
    isError (read_module_data [0, 1, 0, 1] 0 [.ModuleInfo "m"]) = true ∧
    isError (read_module_requires_entry [0, 1, 0, 1] 0 [.ModuleInfo "m"] 0) = true ∧
    isError (read_module_exports_entry [0, 1, 0, 1] 0 [.PackageInfo "p"] 0) = true ∧
    isError (read_module_opens_entry [0, 1, 0, 1] 0 [.PackageInfo "p"] 0) = true :=
  ⟨(access_flag_strictness [0, 1, 0, 0, 0, 0, 0xFF, 0xFF] [.ClassInfo "A"] 0).1
     0 "A" 2 none 4 none 6 0xFFFF 8 rfl rfl rfl rfl,
   (access_flag_strictness [0, 0, 0, 0x20] [] 0).2.1 0 none 2 0x20 4 rfl rfl (by decide),
   (access_flag_strictness [0, 1, 0, 1] [.ModuleInfo "m"] 0).2.2.1 0 "m" 2 1 4
     rfl rfl (by decide),
   (access_flag_strictness [0, 1, 0, 1] [.ModuleInfo "m"] 0).2.2.2.1 0 "m" 2 1 4
     rfl rfl (by decide),
   (access_flag_strictness [0, 1, 0, 1] [.PackageInfo "p"] 0).2.2.2.2.1 0 "p" 2 1 4
     rfl rfl (by decide),
   (access_flag_strictness [0, 1, 0, 1] [.PackageInfo "p"] 0).2.2.2.2.2 0 "p" 2 1 4
     rfl rfl (by decide)⟩

/-! ### C5 -/

/-- C5: for every attribute whose name is not one of the recognized kinds,
the dispatcher produces `AttributeData.Other` holding exactly the `length`
payload bytes at the cursor position and advances the cursor by exactly
`length`. -/
theorem unknown_attribute_preserved (bc : BcDecoder) (cesu : Cesu8Decoder)
    (fuel : Nat) (bytes : List Nat) (ix : Nat) (pool : List ConstantPoolEntry)
    (opts : ParseOptions) (i : Nat) (name : String) (length : Nat)
    (hname : name ∉ recognized_attributes)
    (hlen : ix + length ≤ bytes.length) :
    read_attribute_data bc cesu (fuel + 1) bytes ix pool opts i name length =
      .ok (.Other ((bytes.drop ix).take length), ix + length) ∧
    ((bytes.drop ix).take length).length = length := by
  simp only [recognized_attributes, List.mem_cons, List.mem_singleton, not_or] at hname
  obtain ⟨n1, n2, n3, n4, n5, n6, n7, n8, n9, n10, n11, n12, n13, n14, n15, n16, n17,
    n18, n19, n20, n21, n22, n23, n24, n25, n26, n27, n28, n29, -⟩ := hname
  constructor
  · simp only [read_attribute_data]
    rw [if_neg n1, if_neg n2, if_neg n3, if_neg n4, if_neg n5, if_neg n6, if_neg n7,
        if_neg n8, if_neg n9, if_neg n10, if_neg n11, if_neg n12, if_neg n13, if_neg n14,
        if_neg n15, if_neg n16, if_neg n17, if_neg n18, if_neg n19, if_neg n20,
        if_neg n21, if_neg n22, if_neg n23, if_neg n24, if_neg n25, if_neg n26,
        if_neg n27, if_neg n28, if_neg n29]
  · simp only [List.length_take, List.length_drop]
    omega

/-- Witness for C5: the dispatcher on an attribute named `"Foo"` with payload
`[0xAA, 0xBB, 0xCC]` yields `Other` with exactly those bytes, and the full
`read_attributes` run wraps it as `AttributeInfo` with the name preserved. -/
theorem unknown_attribute_preserved_witness :
    (read_attribute_data bc0 cesu0 1 [0xAA, 0xBB, 0xCC] 0 [] ⟨false⟩ 0 "Foo" 3 =
       .ok (.Other [0xAA, 0xBB, 0xCC], 0 + 3) ∧
     ((([0xAA, 0xBB, 0xCC] : List Nat).drop 0).take 3).length = 3) ∧
    read_attributes bc0 cesu0 4 [0, 1, 0, 1, 0, 0, 0, 3, 0xAA, 0xBB, 0xCC] 0
      [.Utf8 "Foo"] ⟨false⟩ = .ok ([.mk "Foo" (.Other [0xAA, 0xBB, 0xCC])], 11) :=
  ⟨unknown_attribute_preserved bc0 cesu0 0 [0xAA, 0xBB, 0xCC] 0 [] ⟨false⟩ 0 "Foo" 3
     (by decide) (by decide), rfl⟩

/-! ### C7 -/

/-- C7: the fixed-length attributes are enforced — decoding fails unless
ConstantValue, Signature, SourceFile, ModuleMainClass and NestHost declare
length exactly 2, EnclosingMethod exactly 4, and Synthetic and Deprecated
exactly 0; a Synthetic attribute declared with length 3 fails with an error
whose context frame names that attribute (index `i`). -/
theorem fixed_length_attributes_enforced (bc : BcDecoder) (cesu : Cesu8Decoder)
    (fuel : Nat) (bytes : List Nat) (ix : Nat) (pool : List ConstantPoolEntry)
    (opts : ParseOptions) (i : Nat) (length : Nat) :
    (length ≠ 2 → isError (read_attribute_data bc cesu fuel bytes ix pool opts i
      "ConstantValue" length) = true) ∧
    (length ≠ 2 → isError (read_attribute_data bc cesu fuel bytes ix pool opts i
      "Signature" length) = true) ∧
    (length ≠ 2 → isError (read_attribute_data bc cesu fuel bytes ix pool opts i
      "SourceFile" length) = true) ∧
    (length ≠ 2 → isError (read_attribute_data bc cesu fuel bytes ix pool opts i
      "ModuleMainClass" length) = true) ∧
    (length ≠ 2 → isError (read_attribute_data bc cesu fuel bytes ix pool opts i
      "NestHost" length) = true) ∧
    (length ≠ 4 → isError (read_attribute_data bc cesu fuel bytes ix pool opts i
      "EnclosingMethod" length) = true) ∧
    (length ≠ 0 → isError (read_attribute_data bc cesu fuel bytes ix pool opts i
      "Synthetic" length) = true) ∧
    (length ≠ 0 → isError (read_attribute_data bc cesu fuel bytes ix pool opts i
      "Deprecated" length) = true) ∧
    read_attribute_data bc cesu (fuel + 1) bytes ix pool opts i "Synthetic" 3 =
      .error ["Synthetic attribute " ++ toString i, "Unexpected length 3"] := by
  refine ⟨?_, ?_, ?_, ?_, ?_, ?_, ?_, ?_, ?_⟩
  · intro h
    cases fuel with
    | zero => rfl
    | succ f =>
      simp only [read_attribute_data, String.reduceEq, reduceIte]
      simp only [ensure_length]
      rw [if_pos h, wrapErr_error]
      rfl
  · intro h
    cases fuel with
    | zero => rfl
    | succ f =>
      simp only [read_attribute_data, String.reduceEq, reduceIte]
      simp only [ensure_length]
      rw [if_pos h, wrapErr_error]
      rfl
  · intro h
    cases fuel with
    | zero => rfl
    | succ f =>
      simp only [read_attribute_data, String.reduceEq, reduceIte]
      simp only [ensure_length]
      rw [if_pos h, wrapErr_error]
      rfl
  · intro h
    cases fuel with
    | zero => rfl
    | succ f =>
      simp only [read_attribute_data, String.reduceEq, reduceIte]
      simp only [ensure_length]
      rw [if_pos h, wrapErr_error]
      rfl
  · intro h
    cases fuel with
    | zero => rfl
    | succ f =>
      simp only [read_attribute_data, String.reduceEq, reduceIte]
      simp only [ensure_length]
      rw [if_pos h, wrapErr_error]
      rfl
  · intro h
    cases fuel with
    | zero => rfl
    | succ f =>
      simp only [read_attribute_data, String.reduceEq, reduceIte]
      simp only [ensure_length]
      rw [if_pos h, wrapErr_error]
      rfl
  · intro h
    cases fuel with
    | zero => rfl
    | succ f =>
      simp only [read_attribute_data, String.reduceEq, reduceIte]
      simp only [ensure_length]
      rw [if_pos h, wrapErr_error]
      rfl
  · intro h
    cases fuel with
    | zero => rfl
    | succ f =>
      simp only [read_attribute_data, String.reduceEq, reduceIte]
      simp only [ensure_length]
      rw [if_pos h, wrapErr_error]
      rfl
  · simp only [read_attribute_data, String.reduceEq, reduceIte]
    rfl

/-- Witness for C7: with declared length 3 every fixed-length attribute kind
fails, and the Synthetic case produces exactly the claimed contextualized
error. -/
theorem fixed_length_attributes_enforced_witness :
    (isError (read_attribute_data bc0 cesu0 1 [] 0 [] ⟨false⟩ 0 "ConstantValue" 3) = true) ∧
    (isError (read_attribute_data bc0 cesu0 1 [] 0 [] ⟨false⟩ 0 "Signature" 3) = true) ∧
    (isError (read_attribute_data bc0 cesu0 1 [] 0 [] ⟨false⟩ 0 "SourceFile" 3) = true) ∧
    (isError (read_attribute_data bc0 cesu0 1 [] 0 [] ⟨false⟩ 0 "ModuleMainClass" 3) = true) ∧
    (isError (read_attribute_data bc0 cesu0 1 [] 0 [] ⟨false⟩ 0 "NestHost" 3) = true) ∧
    (isError (read_attribute_data bc0 cesu0 1 [] 0 [] ⟨false⟩ 0 "EnclosingMethod" 3) = true) ∧
    (isError (read_attribute_data bc0 cesu0 1 [] 0 [] ⟨false⟩ 0 "Synthetic" 3) = true) ∧
    (isError (read_attribute_data bc0 cesu0 1 [] 0 [] ⟨false⟩ 0 "Deprecated" 3) = true) ∧
    read_attribute_data bc0 cesu0 1 [] 0 [] ⟨false⟩ 0 "Synthetic" 3 =
      .error ["Synthetic attribute 0", "Unexpected length 3"] := by
  have h := fixed_length_attributes_enforced bc0 cesu0 1 [] 0 [] ⟨false⟩ 0 3
  have h9 := fixed_length_attributes_enforced bc0 cesu0 0 [] 0 [] ⟨false⟩ 0 3
  exact ⟨h.1 (by decide), h.2.1 (by decide), h.2.2.1 (by decide), h.2.2.2.1 (by decide),
    h.2.2.2.2.1 (by decide), h.2.2.2.2.2.1 (by decide), h.2.2.2.2.2.2.1 (by decide),
    h.2.2.2.2.2.2.2.1 (by decide), h9.2.2.2.2.2.2.2.2⟩

/-! ### C9 -/

/-- C9: for every successfully decoded Code attribute, `bytecode` is
`some` of the decoder's output when `opts.parse_bytecode` is true and
`none` when it is false, and in both cases `code` holds exactly the raw
`code_length` bytes of the code array.  The statement quantifies over an
arbitrary bytecode decoder `bc` (`ByteCode::from` lives outside src/). -/
theorem code_bytecode_gating (bc : BcDecoder) (cesu : Cesu8Decoder) (fuel : Nat)
    (bytes : List Nat) (ix : Nat) (pool : List ConstantPoolEntry) (opts : ParseOptions)
    (ms ix₁ ml ix₂ clen ix₃ : Nat) (cd : CodeData) (ix' : Nat)
    (h1 : read_u2 bytes ix = .ok (ms, ix₁))
    (h2 : read_u2 bytes ix₁ = .ok (ml, ix₂))
    (h3 : read_u4 bytes ix₂ = .ok (clen, ix₃))
    (hok : read_code_data bc cesu fuel bytes ix pool opts = .ok (cd, ix')) :
    cd.code = (bytes.drop ix₃).take clen ∧ cd.code.length = clen ∧
    (opts.parse_bytecode = true →
      ∃ b, bc cd.code pool = .ok b ∧ cd.bytecode = some b) ∧
    (opts.parse_bytecode = false → cd.bytecode = none) := by
  cases fuel with
  | zero => simp [read_code_data] at hok
  | succ f =>
    simp only [read_code_data] at hok
    rw [h1] at hok
    dsimp only at hok
    rw [h2] at hok
    dsimp only at hok
    rw [h3] at hok
    dsimp only at hok
    split at hok
    · cases hok
    · rename_i hfit
      split at hok
      · cases hok
      · rename_i etc ix₅ h5
        split at hok
        · cases hok
        · rename_i table ix₆ h6
          split at hok
          · cases hok
          · rename_i attrs ix₇ h7
            split at hok
            · cases hok
            · rename_i bytecode heq
              cases hok
              refine ⟨rfl, ?_, ?_, ?_⟩
              · simp only [CodeData.code, List.length_take, List.length_drop]
                omega
              · intro hpb
                rw [hpb] at heq
                rw [if_pos rfl] at heq
                cases hbc : bc ((bytes.drop ix₃).take clen) pool with
                | error e => rw [hbc] at heq; cases heq
                | ok b =>
                  rw [hbc] at heq
                  simp only [wrapErr_ok, Except.map] at heq
                  cases heq
                  exact ⟨b, hbc, rfl⟩
              · intro hpb
                rw [hpb] at heq
                rw [if_neg Bool.false_ne_true] at heq
                cases heq
                rfl

/-- Witness for C9: a one-instruction Code attribute decoded once with
`parse_bytecode = true` (using the identity decoder `bcId`) and once with
`parse_bytecode = false` (using `bc0`): `code` is the raw byte `[0xB1]` in
both runs, `bytecode` is `some [0xB1]` in the first and `none` in the
second. -/
theorem code_bytecode_gating_witness :
    ((CodeData.mk 1 1 [0xB1] (some [0xB1]) [] []).code =
      (([0, 1, 0, 1, 0, 0, 0, 1, 0xB1, 0, 0, 0, 0] : List Nat).drop 8).take 1 ∧
     (CodeData.mk 1 1 [0xB1] (some [0xB1]) [] []).code.length = 1 ∧
     ((⟨true⟩ : ParseOptions).parse_bytecode = true →
       ∃ b, bcId (CodeData.mk 1 1 [0xB1] (some [0xB1]) [] []).code [] = .ok b ∧
         (CodeData.mk 1 1 [0xB1] (some [0xB1]) [] []).bytecode = some b) ∧
     ((⟨true⟩ : ParseOptions).parse_bytecode = false →
       (CodeData.mk 1 1 [0xB1] (some [0xB1]) [] []).bytecode = none)) ∧
    ((⟨false⟩ : ParseOptions).parse_bytecode = false →
      (CodeData.mk 1 1 [0xB1] none [] []).bytecode = none) :=
  ⟨code_bytecode_gating bcId cesu0 5 [0, 1, 0, 1, 0, 0, 0, 1, 0xB1, 0, 0, 0, 0] 0 []
     ⟨true⟩ 1 2 1 4 1 8 (CodeData.mk 1 1 [0xB1] (some [0xB1]) [] []) 13 rfl rfl rfl
     (by rfl),
   (code_bytecode_gating bc0 cesu0 5 [0, 1, 0, 1, 0, 0, 0, 1, 0xB1, 0, 0, 0, 0] 0 []
     ⟨false⟩ 1 2 1 4 1 8 (CodeData.mk 1 1 [0xB1] none [] []) 13 rfl rfl rfl
     (by rfl)).2.2.2⟩

/-! ### C6 -/

/-- C6: `read_annotation_element_value` dispatches on one ASCII discriminant
byte — B/C/I/S/Z read a pool Integer, D a Double, F a Float, J a Long,
s a pool Utf8 string, e an enum whose type_name must be a field descriptor,
c a class literal whose class_name must be a return descriptor, @ a nested
annotation, [ a u16-counted array of recursively decoded values; any other
byte is fatal.  Every successfully parsed annotation (`read_annotation`) has
a type_descriptor satisfying `is_field_descriptor`. -/
theorem annotation_element_dispatch (fuel : Nat) (bytes : List Nat) (ix : Nat)
    (pool : List ConstantPoolEntry) (tag : Nat)
    (hget : bytes.get? ix = some tag) (htag : tag < 256) :
    (tag = 'B'.toNat → read_annot_element_value (fuel + 1) bytes ix pool =
      (read_cp_integer bytes (ix + 1) pool).map
        (fun p => (AnnotElementValue.ByteConstant p.1, p.2))) ∧
    (tag = 'C'.toNat → read_annot_element_value (fuel + 1) bytes ix pool =
      (read_cp_integer bytes (ix + 1) pool).map
        (fun p => (AnnotElementValue.CharConstant p.1, p.2))) ∧
    (tag = 'D'.toNat → read_annot_element_value (fuel + 1) bytes ix pool =
      (read_cp_double bytes (ix + 1) pool).map
        (fun p => (AnnotElementValue.DoubleConstant p.1, p.2))) ∧
    (tag = 'F'.toNat → read_annot_element_value (fuel + 1) bytes ix pool =
      (read_cp_float bytes (ix + 1) pool).map
        (fun p => (AnnotElementValue.FloatConstant p.1, p.2))) ∧
    (tag = 'I'.toNat → read_annot_element_value (fuel + 1) bytes ix pool =
      (read_cp_integer bytes (ix + 1) pool).map
        (fun p => (AnnotElementValue.IntConstant p.1, p.2))) ∧
    (tag = 'J'.toNat → read_annot_element_value (fuel + 1) bytes ix pool =
      (read_cp_long bytes (ix + 1) pool).map
        (fun p => (AnnotElementValue.LongConstant p.1, p.2))) ∧
    (tag = 'S'.toNat → read_annot_element_value (fuel + 1) bytes ix pool =
      (read_cp_integer bytes (ix + 1) pool).map
        (fun p => (AnnotElementValue.ShortConstant p.1, p.2))) ∧
    (tag = 'Z'.toNat → read_annot_element_value (fuel + 1) bytes ix pool =
      (read_cp_integer bytes (ix + 1) pool).map
        (fun p => (AnnotElementValue.BooleanConstant p.1, p.2))) ∧
    (tag = 's'.toNat → read_annot_element_value (fuel + 1) bytes ix pool =
      (read_cp_utf8 bytes (ix + 1) pool).map
        (fun p => (AnnotElementValue.StringConstant p.1, p.2))) ∧
    (tag = 'e'.toNat → ∀ tn ix₂,
      read_cp_utf8 bytes (ix + 1) pool = .ok (tn, ix₂) →
      (is_field_descriptor tn = false →
        isError (read_annot_element_value (fuel + 1) bytes ix pool) = true) ∧
      (is_field_descriptor tn = true → ∀ cn ix₃,
        read_cp_utf8 bytes ix₂ pool = .ok (cn, ix₃) →
        read_annot_element_value (fuel + 1) bytes ix pool =
          .ok (.EnumConstant tn cn, ix₃))) ∧
    (tag = 'c'.toNat → ∀ cn ix₂,
      read_cp_utf8 bytes (ix + 1) pool = .ok (cn, ix₂) →
      (is_return_descriptor cn = false →
        isError (read_annot_element_value (fuel + 1) bytes ix pool) = true) ∧
      (is_return_descriptor cn = true →
        read_annot_element_value (fuel + 1) bytes ix pool =
          .ok (.ClassLiteral cn, ix₂))) ∧
    (tag = '@'.toNat → read_annot_element_value (fuel + 1) bytes ix pool =
      (read_annot fuel bytes (ix + 1) pool).map
        (fun p => (AnnotElementValue.AnnotationValue p.1.type_descriptor p.1.elements, p.2))) ∧
    (tag = '['.toNat → ∀ n ix₂, read_u2 bytes (ix + 1) = .ok (n, ix₂) →
      read_annot_element_value (fuel + 1) bytes ix pool =
        (read_annot_element_value_list fuel bytes ix₂ pool n 0).map
          (fun p => (AnnotElementValue.ArrayValue p.1, p.2))) ∧
    (tag ∉ (['B', 'C', 'D', 'F', 'I', 'J', 'S', 'Z', 's', 'e', 'c', '@', '['].map
        Char.toNat) →
      isError (read_annot_element_value (fuel + 1) bytes ix pool) = true) ∧
    (∀ f a ix', read_annot f bytes ix pool = .ok (a, ix') →
      is_field_descriptor a.type_descriptor = true) := by
  refine ⟨?_, ?_, ?_, ?_, ?_, ?_, ?_, ?_, ?_, ?_, ?_, ?_, ?_, ?_, ?_⟩
  · intro h
    subst h
    simp only [read_annot_element_value, read_u1, hget, Nat.mod_eq_of_lt htag]
    rw [if_pos trivial]
    cases hc : read_cp_integer bytes (ix + 1) pool with
    | error e => rfl
    | ok p => cases p; rfl
  · intro h
    subst h
    simp only [read_annot_element_value, read_u1, hget, Nat.mod_eq_of_lt htag]
    rw [ite_else_of (by decide), if_pos trivial]
    cases hc : read_cp_integer bytes (ix + 1) pool with
    | error e => rfl
    | ok p => cases p; rfl
  · intro h
    subst h
    simp only [read_annot_element_value, read_u1, hget, Nat.mod_eq_of_lt htag]
    rw [ite_else_of (by decide), ite_else_of (by decide), if_pos trivial]
    cases hc : read_cp_double bytes (ix + 1) pool with
    | error e => rfl
    | ok p => cases p; rfl
  · intro h
    subst h
    simp only [read_annot_element_value, read_u1, hget, Nat.mod_eq_of_lt htag]
    rw [ite_else_of (by decide), ite_else_of (by decide), ite_else_of (by decide), if_pos trivial]
    cases hc : read_cp_float bytes (ix + 1) pool with
    | error e => rfl
    | ok p => cases p; rfl
  · intro h
    subst h
    simp only [read_annot_element_value, read_u1, hget, Nat.mod_eq_of_lt htag]
    rw [ite_else_of (by decide), ite_else_of (by decide), ite_else_of (by decide), ite_else_of (by decide), if_pos trivial]
    cases hc : read_cp_integer bytes (ix + 1) pool with
    | error e => rfl
    | ok p => cases p; rfl
  · intro h
    subst h
    simp only [read_annot_element_value, read_u1, hget, Nat.mod_eq_of_lt htag]
    rw [ite_else_of (by decide), ite_else_of (by decide), ite_else_of (by decide), ite_else_of (by decide), ite_else_of (by decide), if_pos trivial]
    cases hc : read_cp_long bytes (ix + 1) pool with
    | error e => rfl
    | ok p => cases p; rfl
  · intro h
    subst h
    simp only [read_annot_element_value, read_u1, hget, Nat.mod_eq_of_lt htag]
    rw [ite_else_of (by decide), ite_else_of (by decide), ite_else_of (by decide), ite_else_of (by decide), ite_else_of (by decide), ite_else_of (by decide), if_pos trivial]
    cases hc : read_cp_integer bytes (ix + 1) pool with
    | error e => rfl
    | ok p => cases p; rfl
  · intro h
    subst h
    simp only [read_annot_element_value, read_u1, hget, Nat.mod_eq_of_lt htag]
    rw [ite_else_of (by decide), ite_else_of (by decide), ite_else_of (by decide), ite_else_of (by decide), ite_else_of (by decide), ite_else_of (by decide), ite_else_of (by decide), if_pos trivial]
    cases hc : read_cp_integer bytes (ix + 1) pool with
    | error e => rfl
    | ok p => cases p; rfl
  · intro h
    subst h
    simp only [read_annot_element_value, read_u1, hget, Nat.mod_eq_of_lt htag]
    rw [ite_else_of (by decide), ite_else_of (by decide), ite_else_of (by decide), ite_else_of (by decide), ite_else_of (by decide), ite_else_of (by decide), ite_else_of (by decide), ite_else_of (by decide), if_pos trivial]
    cases hc : read_cp_utf8 bytes (ix + 1) pool with
    | error e => rfl
    | ok p => cases p; rfl
  · intro h tn ix₂ htn
    subst h
    constructor
    · intro hfd
      simp only [read_annot_element_value, read_u1, hget, Nat.mod_eq_of_lt htag]
      rw [ite_else_of (by decide), ite_else_of (by decide), ite_else_of (by decide), ite_else_of (by decide), ite_else_of (by decide), ite_else_of (by decide), ite_else_of (by decide), ite_else_of (by decide), ite_else_of (by decide), if_pos trivial, htn]
      dsimp only
      rw [if_pos (by simp [hfd])]
      rfl
    · intro hfd cn ix₃ hcn
      simp only [read_annot_element_value, read_u1, hget, Nat.mod_eq_of_lt htag]
      rw [ite_else_of (by decide), ite_else_of (by decide), ite_else_of (by decide), ite_else_of (by decide), ite_else_of (by decide), ite_else_of (by decide), ite_else_of (by decide), ite_else_of (by decide), ite_else_of (by decide), if_pos trivial, htn]
      dsimp only
      rw [if_neg (by simp [hfd]), hcn]
  · intro h cn ix₂ hcn
    subst h
    constructor
    · intro hrd
      simp only [read_annot_element_value, read_u1, hget, Nat.mod_eq_of_lt htag]
      rw [ite_else_of (by decide), ite_else_of (by decide), ite_else_of (by decide), ite_else_of (by decide), ite_else_of (by decide), ite_else_of (by decide), ite_else_of (by decide), ite_else_of (by decide), ite_else_of (by decide), ite_else_of (by decide), if_pos trivial, hcn]
      dsimp only
      rw [if_pos (by simp [hrd])]
      rfl
    · intro hrd
      simp only [read_annot_element_value, read_u1, hget, Nat.mod_eq_of_lt htag]
      rw [ite_else_of (by decide), ite_else_of (by decide), ite_else_of (by decide), ite_else_of (by decide), ite_else_of (by decide), ite_else_of (by decide), ite_else_of (by decide), ite_else_of (by decide), ite_else_of (by decide), ite_else_of (by decide), if_pos trivial, hcn]
      dsimp only
      rw [if_neg (by simp [hrd])]
  · intro h
    subst h
    simp only [read_annot_element_value, read_u1, hget, Nat.mod_eq_of_lt htag]
    rw [ite_else_of (by decide), ite_else_of (by decide), ite_else_of (by decide), ite_else_of (by decide), ite_else_of (by decide), ite_else_of (by decide), ite_else_of (by decide), ite_else_of (by decide), ite_else_of (by decide), ite_else_of (by decide), ite_else_of (by decide), if_pos trivial]
    cases hc : read_annot fuel bytes (ix + 1) pool with
    | error e => rfl
    | ok p => cases p; rfl
  · intro h n ix₂ hn
    subst h
    simp only [read_annot_element_value, read_u1, hget, Nat.mod_eq_of_lt htag]
    rw [ite_else_of (by decide), ite_else_of (by decide), ite_else_of (by decide), ite_else_of (by decide), ite_else_of (by decide), ite_else_of (by decide), ite_else_of (by decide), ite_else_of (by decide), ite_else_of (by decide), ite_else_of (by decide), ite_else_of (by decide), ite_else_of (by decide), if_pos trivial, hn]
    dsimp only
    cases hc : read_annot_element_value_list fuel bytes ix₂ pool n 0 with
    | error e => rfl
    | ok p => cases p; rfl
  · intro hmem
    simp only [read_annot_element_value, read_u1, hget, Nat.mod_eq_of_lt htag]
    rw [if_neg (fun h => hmem (by rw [h]; decide)), if_neg (fun h => hmem (by rw [h]; decide)), if_neg (fun h => hmem (by rw [h]; decide)), if_neg (fun h => hmem (by rw [h]; decide)), if_neg (fun h => hmem (by rw [h]; decide)), if_neg (fun h => hmem (by rw [h]; decide)), if_neg (fun h => hmem (by rw [h]; decide)), if_neg (fun h => hmem (by rw [h]; decide)), if_neg (fun h => hmem (by rw [h]; decide)), if_neg (fun h => hmem (by rw [h]; decide)), if_neg (fun h => hmem (by rw [h]; decide)), if_neg (fun h => hmem (by rw [h]; decide)), if_neg (fun h => hmem (by rw [h]; decide))]
    rfl
  · intro f a ix' h
    cases f with
    | zero => simp [read_annot] at h
    | succ g =>
      simp only [read_annot] at h
      split at h
      · cases h
      · rename_i td ix₁ htd
        split at h
        · cases h
        · rename_i hfd
          split at h
          · cases h
          · rename_i ec ix₂ hec
            split at h
            · cases h
            · rename_i elems ix₃ helems
              cases h
              exact not_not.mp hfd

/-- Witness for C6: every discriminant bucket exercised concretely — the
eight primitive tags, string, enum (accepted and rejected type_name), class
literal (accepted and rejected class_name), nested annotation, array, an
unknown byte, and the annotation type-descriptor validation. -/
theorem annotation_element_dispatch_witness :
    read_annot_element_value 1 [66, 0, 1] 0 [.IntegerInfo 7] = .ok (.ByteConstant 7, 3) ∧
    read_annot_element_value 1 [67, 0, 1] 0 [.IntegerInfo 7] = .ok (.CharConstant 7, 3) ∧
    read_annot_element_value 1 [68, 0, 1] 0 [.DoubleInfo 5] = .ok (.DoubleConstant 5, 3) ∧
    read_annot_element_value 1 [70, 0, 1] 0 [.FloatInfo 3] = .ok (.FloatConstant 3, 3) ∧
    read_annot_element_value 1 [73, 0, 1] 0 [.IntegerInfo 7] = .ok (.IntConstant 7, 3) ∧
    read_annot_element_value 1 [74, 0, 1] 0 [.LongInfo 9] = .ok (.LongConstant 9, 3) ∧
    read_annot_element_value 1 [83, 0, 1] 0 [.IntegerInfo 7] = .ok (.ShortConstant 7, 3) ∧
    read_annot_element_value 1 [90, 0, 1] 0 [.IntegerInfo 7] =
      .ok (.BooleanConstant 7, 3) ∧
    read_annot_element_value 1 [115, 0, 1] 0 [.Utf8 "hi"] = .ok (.StringConstant "hi", 3) ∧
    isError (read_annot_element_value 1 [101, 0, 1] 0 [.Utf8 "!"]) = true ∧
    read_annot_element_value 1 [101, 0, 1, 0, 2] 0 [.Utf8 "I", .Utf8 "K"] =
      .ok (.EnumConstant "I" "K", 5) ∧
    isError (read_annot_element_value 1 [99, 0, 1] 0 [.Utf8 "!"]) = true ∧
    read_annot_element_value 1 [99, 0, 1] 0 [.Utf8 "V"] = .ok (.ClassLiteral "V", 3) ∧
    read_annot_element_value 3 [64, 0, 1, 0, 0] 0 [.Utf8 "I"] =
      .ok (.AnnotationValue "I" [], 5) ∧
    read_annot_element_value 2 [91, 0, 0] 0 [] = .ok (.ArrayValue [], 3) ∧
    isError (read_annot_element_value 1 [120] 0 []) = true ∧
    is_field_descriptor (Annot.mk "I" []).type_descriptor = true :=
  ⟨((annotation_element_dispatch 0 [66, 0, 1] 0 [.IntegerInfo 7] 66 rfl
      (by omega)).1 rfl).trans (by rfl),
   ((annotation_element_dispatch 0 [67, 0, 1] 0 [.IntegerInfo 7] 67 rfl
      (by omega)).2.1 rfl).trans (by rfl),
   ((annotation_element_dispatch 0 [68, 0, 1] 0 [.DoubleInfo 5] 68 rfl
      (by omega)).2.2.1 rfl).trans (by rfl),
   ((annotation_element_dispatch 0 [70, 0, 1] 0 [.FloatInfo 3] 70 rfl
      (by omega)).2.2.2.1 rfl).trans (by rfl),
   ((annotation_element_dispatch 0 [73, 0, 1] 0 [.IntegerInfo 7] 73 rfl
      (by omega)).2.2.2.2.1 rfl).trans (by rfl),
   ((annotation_element_dispatch 0 [74, 0, 1] 0 [.LongInfo 9] 74 rfl
      (by omega)).2.2.2.2.2.1 rfl).trans (by rfl),
   ((annotation_element_dispatch 0 [83, 0, 1] 0 [.IntegerInfo 7] 83 rfl
      (by omega)).2.2.2.2.2.2.1 rfl).trans (by rfl),
   ((annotation_element_dispatch 0 [90, 0, 1] 0 [.IntegerInfo 7] 90 rfl
      (by omega)).2.2.2.2.2.2.2.1 rfl).trans (by rfl),
   ((annotation_element_dispatch 0 [115, 0, 1] 0 [.Utf8 "hi"] 115 rfl
      (by omega)).2.2.2.2.2.2.2.2.1 rfl).trans (by rfl),
   ((annotation_element_dispatch 0 [101, 0, 1] 0 [.Utf8 "!"] 101 rfl
      (by omega)).2.2.2.2.2.2.2.2.2.1 rfl "!" 3 rfl).1 rfl,
   ((annotation_element_dispatch 0 [101, 0, 1, 0, 2] 0 [.Utf8 "I", .Utf8 "K"] 101 rfl
      (by omega)).2.2.2.2.2.2.2.2.2.1 rfl "I" 3 rfl).2 rfl "K" 5 rfl,
   ((annotation_element_dispatch 0 [99, 0, 1] 0 [.Utf8 "!"] 99 rfl
      (by omega)).2.2.2.2.2.2.2.2.2.2.1 rfl "!" 3 rfl).1 rfl,
   ((annotation_element_dispatch 0 [99, 0, 1] 0 [.Utf8 "V"] 99 rfl
      (by omega)).2.2.2.2.2.2.2.2.2.2.1 rfl "V" 3 rfl).2 rfl,
   ((annotation_element_dispatch 2 [64, 0, 1, 0, 0] 0 [.Utf8 "I"] 64 rfl
      (by omega)).2.2.2.2.2.2.2.2.2.2.2.1 rfl).trans (by rfl),
   ((annotation_element_dispatch 1 [91, 0, 0] 0 [] 91 rfl
      (by omega)).2.2.2.2.2.2.2.2.2.2.2.2.1 rfl 0 3 rfl).trans (by rfl),
   (annotation_element_dispatch 0 [120] 0 [] 120 rfl
      (by omega)).2.2.2.2.2.2.2.2.2.2.2.2.2.1 (by decide),
   (annotation_element_dispatch 0 [0, 1, 0, 0] 0 [.Utf8 "I"] 0 rfl
      (by omega)).2.2.2.2.2.2.2.2.2.2.2.2.2.2 2 (Annot.mk "I" []) 4 (by rfl)⟩

/-! ### C8 -/

theorem read_localvar_target_list_length (bytes : List Nat) :
    ∀ count ix l ix', read_localvar_target_list bytes count ix = .ok (l, ix') →
      l.length = count := by
  intro count
  induction count with
  | zero =>
    intro ix l ix' h
    simp only [read_localvar_target_list] at h
    cases h
    rfl
  | succ n ih =>
    intro ix l ix' h
    simp only [read_localvar_target_list] at h
    split at h
    · cases h
    · rename_i a ix₁ h1
      split at h
      · cases h
      · rename_i b ix₂ h2
        split at h
        · cases h
        · rename_i c ix₃ h3
          split at h
          · cases h
          · rename_i xs ix₄ h4
            cases h
            simp [ih _ _ _ h4]

/-- C8: the type-annotation target_type byte is decoded per the JVM buckets
(0x00/0x01 type parameter with u8 index; 0x10 supertype with u16 index;
0x11/0x12 bound; 0x13/0x14/0x15 empty; 0x16 formal parameter; 0x17 throws;
0x40/0x41 u16-counted local-variable table; 0x42 catch; 0x43..0x46 offset;
0x47..0x4B type argument; anything else fatal), and a target-path element's
kind byte must be 0, 1, 2 or 3 (DeeperArray, DeeperNested,
WildcardTypeArgument, TypeArgument), anything greater being fatal. -/
theorem type_annotation_target_dispatch (bytes : List Nat) (ix : Nat)
    (pool : List ConstantPoolEntry) (i j tag : Nat)
    (hget : bytes.get? ix = some tag) (htag : tag < 256) :
    (tag = 0x00 ∨ tag = 0x01 → ∀ v ix₂, read_u1 bytes (ix + 1) = .ok (v, ix₂) →
      read_type_annot_target bytes ix pool i = .ok (.TypeParameter v, ix₂)) ∧
    (tag = 0x10 → ∀ v ix₂, read_u2 bytes (ix + 1) = .ok (v, ix₂) →
      read_type_annot_target bytes ix pool i = .ok (.Supertype v, ix₂)) ∧
    (tag = 0x11 ∨ tag = 0x12 → ∀ a ix₂ b ix₃,
      read_u1 bytes (ix + 1) = .ok (a, ix₂) → read_u1 bytes ix₂ = .ok (b, ix₃) →
      read_type_annot_target bytes ix pool i = .ok (.TypeParameterBound a b, ix₃)) ∧
    (tag = 0x13 ∨ tag = 0x14 ∨ tag = 0x15 →
      read_type_annot_target bytes ix pool i = .ok (.Empty, ix + 1)) ∧
    (tag = 0x16 → ∀ v ix₂, read_u1 bytes (ix + 1) = .ok (v, ix₂) →
      read_type_annot_target bytes ix pool i = .ok (.FormalParameter v, ix₂)) ∧
    (tag = 0x17 → ∀ v ix₂, read_u2 bytes (ix + 1) = .ok (v, ix₂) →
      read_type_annot_target bytes ix pool i = .ok (.Throws v, ix₂)) ∧
    (tag = 0x40 ∨ tag = 0x41 → ∀ n ix₂ entries ix₃,
      read_u2 bytes (ix + 1) = .ok (n, ix₂) →
      read_localvar_target_list bytes n ix₂ = .ok (entries, ix₃) →
      read_type_annot_target bytes ix pool i = .ok (.LocalVar entries, ix₃) ∧
      entries.length = n) ∧
    (tag = 0x42 → ∀ v ix₂, read_u2 bytes (ix + 1) = .ok (v, ix₂) →
      read_type_annot_target bytes ix pool i = .ok (.Catch v, ix₂)) ∧
    (0x43 ≤ tag → tag ≤ 0x46 → ∀ v ix₂, read_u2 bytes (ix + 1) = .ok (v, ix₂) →
      read_type_annot_target bytes ix pool i = .ok (.Offset v, ix₂)) ∧
    (0x47 ≤ tag → tag ≤ 0x4B → ∀ off ix₂ ti ix₃,
      read_u2 bytes (ix + 1) = .ok (off, ix₂) → read_u1 bytes ix₂ = .ok (ti, ix₃) →
      read_type_annot_target bytes ix pool i = .ok (.TypeArgument off ti, ix₃)) ∧
    (tag ∉ ([0x00, 0x01, 0x10, 0x11, 0x12, 0x13, 0x14, 0x15, 0x16, 0x17, 0x40, 0x41,
        0x42, 0x43, 0x44, 0x45, 0x46, 0x47, 0x48, 0x49, 0x4A, 0x4B] : List Nat) →
      isError (read_type_annot_target bytes ix pool i) = true) ∧
    (tag = 0 → ∀ ai ix₂, read_u1 bytes (ix + 1) = .ok (ai, ix₂) →
      read_type_annot_path_entry bytes ix j i = .ok (⟨.DeeperArray, ai⟩, ix₂)) ∧
    (tag = 1 → ∀ ai ix₂, read_u1 bytes (ix + 1) = .ok (ai, ix₂) →
      read_type_annot_path_entry bytes ix j i = .ok (⟨.DeeperNested, ai⟩, ix₂)) ∧
    (tag = 2 → ∀ ai ix₂, read_u1 bytes (ix + 1) = .ok (ai, ix₂) →
      read_type_annot_path_entry bytes ix j i = .ok (⟨.WildcardTypeArgument, ai⟩, ix₂)) ∧
    (tag = 3 → ∀ ai ix₂, read_u1 bytes (ix + 1) = .ok (ai, ix₂) →
      read_type_annot_path_entry bytes ix j i = .ok (⟨.TypeArgument, ai⟩, ix₂)) ∧
    (4 ≤ tag → isError (read_type_annot_path_entry bytes ix j i) = true) := by
  have hu1 : read_u1 bytes ix = .ok (tag, ix + 1) := by
    simp only [read_u1, hget, Nat.mod_eq_of_lt htag]
  refine ⟨?_, ?_, ?_, ?_, ?_, ?_, ?_, ?_, ?_, ?_, ?_, ?_, ?_, ?_, ?_, ?_⟩
  · intro h v ix₂ hv
    simp only [read_type_annot_target, hu1]
    rw [if_pos h, hv]
  · intro h v ix₂ hv
    simp only [read_type_annot_target, hu1]
    rw [ite_else_of (by omega), if_pos h, hv]
  · intro h a ix₂ b ix₃ ha hb
    simp only [read_type_annot_target, hu1]
    rw [ite_else_of (by omega), ite_else_of (by omega), if_pos h, ha]
    dsimp only
    rw [hb]
  · intro h
    simp only [read_type_annot_target, hu1]
    rw [ite_else_of (by omega), ite_else_of (by omega), ite_else_of (by omega), if_pos h]
  · intro h v ix₂ hv
    simp only [read_type_annot_target, hu1]
    rw [ite_else_of (by omega), ite_else_of (by omega), ite_else_of (by omega), ite_else_of (by omega),
        if_pos h, hv]
  · intro h v ix₂ hv
    simp only [read_type_annot_target, hu1]
    rw [ite_else_of (by omega), ite_else_of (by omega), ite_else_of (by omega), ite_else_of (by omega),
        ite_else_of (by omega), if_pos h, hv]
  · intro h n ix₂ entries ix₃ hn hlist
    refine ⟨?_, read_localvar_target_list_length _ _ _ _ _ hlist⟩
    simp only [read_type_annot_target, hu1]
    rw [ite_else_of (by omega), ite_else_of (by omega), ite_else_of (by omega), ite_else_of (by omega),
        ite_else_of (by omega), ite_else_of (by omega), if_pos h, hn]
    dsimp only
    rw [hlist]
  · intro h v ix₂ hv
    simp only [read_type_annot_target, hu1]
    rw [ite_else_of (by omega), ite_else_of (by omega), ite_else_of (by omega), ite_else_of (by omega),
        ite_else_of (by omega), ite_else_of (by omega), ite_else_of (by omega), if_pos h, hv]
  · intro h1 h2 v ix₂ hv
    simp only [read_type_annot_target, hu1]
    rw [ite_else_of (by omega), ite_else_of (by omega), ite_else_of (by omega), ite_else_of (by omega),
        ite_else_of (by omega), ite_else_of (by omega), ite_else_of (by omega), ite_else_of (by omega),
        if_pos (by omega), hv]
  · intro h1 h2 off ix₂ ti ix₃ hoff hti
    simp only [read_type_annot_target, hu1]
    rw [ite_else_of (by omega), ite_else_of (by omega), ite_else_of (by omega), ite_else_of (by omega),
        ite_else_of (by omega), ite_else_of (by omega), ite_else_of (by omega), ite_else_of (by omega),
        ite_else_of (by omega), if_pos (by omega), hoff]
    dsimp only
    rw [hti]
  · intro hmem
    simp only [List.mem_cons, List.mem_singleton, not_or] at hmem
    obtain ⟨m1, m2, m3, m4, m5, m6, m7, m8, m9, m10, m11, m12, m13, m14, m15, m16,
      m17, m18, m19, m20, m21, m22, -⟩ := hmem
    simp only [read_type_annot_target, hu1]
    rw [ite_else_of (by omega), ite_else_of (by omega), ite_else_of (by omega), ite_else_of (by omega),
        ite_else_of (by omega), ite_else_of (by omega), ite_else_of (by omega), ite_else_of (by omega),
        ite_else_of (by omega), ite_else_of (by omega)]
    rfl
  · intro h ai ix₂ hai
    subst h
    unfold read_type_annot_path_entry
    rw [hu1]
    dsimp only
    rw [if_pos (by omega), hai]
    rfl
  · intro h ai ix₂ hai
    subst h
    unfold read_type_annot_path_entry
    rw [hu1]
    dsimp only
    rw [if_pos (by omega), hai]
    rfl
  · intro h ai ix₂ hai
    subst h
    unfold read_type_annot_path_entry
    rw [hu1]
    dsimp only
    rw [if_pos (by omega), hai]
    rfl
  · intro h ai ix₂ hai
    subst h
    unfold read_type_annot_path_entry
    rw [hu1]
    dsimp only
    rw [if_pos (by omega), hai]
    rfl
  · intro h
    unfold read_type_annot_path_entry
    rw [hu1]
    dsimp only
    rw [ite_else_of (by omega)]
    rfl

/-- Witness for C8: every target bucket and every path kind exercised at a
concrete input, plus an unrecognized target (0x30) and an unrecognized path
kind (4), both fatal. -/
theorem type_annotation_target_dispatch_witness :
    read_type_annot_target [0x00, 5] 0 [] 0 = .ok (.TypeParameter 5, 2) ∧
    read_type_annot_target [0x10, 0, 2] 0 [] 0 = .ok (.Supertype 2, 3) ∧
    read_type_annot_target [0x11, 1, 2] 0 [] 0 = .ok (.TypeParameterBound 1 2, 3) ∧
    read_type_annot_target [0x13] 0 [] 0 = .ok (.Empty, 1) ∧
    read_type_annot_target [0x16, 4] 0 [] 0 = .ok (.FormalParameter 4, 2) ∧
    read_type_annot_target [0x17, 0, 6] 0 [] 0 = .ok (.Throws 6, 3) ∧
    (read_type_annot_target [0x40, 0, 1, 0, 1, 0, 2, 0, 3] 0 [] 0 =
       .ok (.LocalVar [⟨1, 2, 3⟩], 9) ∧
     ([(⟨1, 2, 3⟩ : TypeAnnotationLocalVarTargetEntry)]).length = 1) ∧
    read_type_annot_target [0x42, 0, 7] 0 [] 0 = .ok (.Catch 7, 3) ∧
    read_type_annot_target [0x43, 0, 8] 0 [] 0 = .ok (.Offset 8, 3) ∧
    read_type_annot_target [0x47, 0, 9, 2] 0 [] 0 = .ok (.TypeArgument 9 2, 4) ∧
    isError (read_type_annot_target [0x30] 0 [] 0) = true ∧
    read_type_annot_path_entry [0, 4] 0 0 0 = .ok (⟨.DeeperArray, 4⟩, 2) ∧
    read_type_annot_path_entry [1, 4] 0 0 0 = .ok (⟨.DeeperNested, 4⟩, 2) ∧
    read_type_annot_path_entry [2, 4] 0 0 0 = .ok (⟨.WildcardTypeArgument, 4⟩, 2) ∧
    read_type_annot_path_entry [3, 4] 0 0 0 = .ok (⟨.TypeArgument, 4⟩, 2) ∧
    isError (read_type_annot_path_entry [4] 0 0 0) = true :=
  ⟨(type_annotation_target_dispatch [0x00, 5] 0 [] 0 0 0 rfl (by omega)).1
     (Or.inl rfl) 5 2 rfl,
   (type_annotation_target_dispatch [0x10, 0, 2] 0 [] 0 0 0x10 rfl (by omega)).2.1
     rfl 2 3 rfl,
   (type_annotation_target_dispatch [0x11, 1, 2] 0 [] 0 0 0x11 rfl (by omega)).2.2.1
     (Or.inl rfl) 1 2 2 3 rfl rfl,
   (type_annotation_target_dispatch [0x13] 0 [] 0 0 0x13 rfl (by omega)).2.2.2.1
     (Or.inl rfl),
   (type_annotation_target_dispatch [0x16, 4] 0 [] 0 0 0x16 rfl (by omega)).2.2.2.2.1
     rfl 4 2 rfl,
   (type_annotation_target_dispatch [0x17, 0, 6] 0 [] 0 0 0x17 rfl
     (by omega)).2.2.2.2.2.1 rfl 6 3 rfl,
   (type_annotation_target_dispatch [0x40, 0, 1, 0, 1, 0, 2, 0, 3] 0 [] 0 0 0x40 rfl
     (by omega)).2.2.2.2.2.2.1 (Or.inl rfl) 1 3 [⟨1, 2, 3⟩] 9 rfl rfl,
   (type_annotation_target_dispatch [0x42, 0, 7] 0 [] 0 0 0x42 rfl
     (by omega)).2.2.2.2.2.2.2.1 rfl 7 3 rfl,
   (type_annotation_target_dispatch [0x43, 0, 8] 0 [] 0 0 0x43 rfl
     (by omega)).2.2.2.2.2.2.2.2.1 (by omega) (by omega) 8 3 rfl,
   (type_annotation_target_dispatch [0x47, 0, 9, 2] 0 [] 0 0 0x47 rfl
     (by omega)).2.2.2.2.2.2.2.2.2.1 (by omega) (by omega) 9 3 2 4 rfl rfl,
   (type_annotation_target_dispatch [0x30] 0 [] 0 0 0x30 rfl
     (by omega)).2.2.2.2.2.2.2.2.2.2.1 (by decide),
   (type_annotation_target_dispatch [0, 4] 0 [] 0 0 0 rfl
     (by omega)).2.2.2.2.2.2.2.2.2.2.2.1 rfl 4 2 rfl,
   (type_annotation_target_dispatch [1, 4] 0 [] 0 0 1 rfl
     (by omega)).2.2.2.2.2.2.2.2.2.2.2.2.1 rfl 4 2 rfl,
   (type_annotation_target_dispatch [2, 4] 0 [] 0 0 2 rfl
     (by omega)).2.2.2.2.2.2.2.2.2.2.2.2.2.1 rfl 4 2 rfl,
   (type_annotation_target_dispatch [3, 4] 0 [] 0 0 3 rfl
     (by omega)).2.2.2.2.2.2.2.2.2.2.2.2.2.2.1 rfl 4 2 rfl,
   (type_annotation_target_dispatch [4] 0 [] 0 0 4 rfl
     (by omega)).2.2.2.2.2.2.2.2.2.2.2.2.2.2.2 (by omega)⟩
